import Mathlib

/-!
# Verification of the gemini-showcase session pipeline and connection-pool subsystem

Shallow embedding of the Python sources under `src/server/services/`:
`lyria_pool.py` (connection pool and Lyria connection wrapper),
`composition_context.py` (per-session composition state),
`orchestrator.py` (session coordinator and frame schedulers), and the
shared comparison state of `frame_extractor.py`.

Machine integers do not occur on any modelled path; Python floats used as
wall-clock times, playback offsets and difference scores are modelled as
rationals (`ℚ`).  Fallible code returns `Except`; background callbacks are
modelled as explicit state and explicit event inputs to loop iterations.
-/

namespace GeminiShowcase

/-! ## Python string helpers

`not s` on a Python `Optional[str]` is true for both `None` and `""`;
`needle in hay` is substring containment; `str.lower` maps characters to
lower case.  These helpers reproduce those semantics. -/

/-- Python truthiness test `not x` for an `Optional[str]` value `x`:
true exactly for `None` and the empty string. -/
def optStrFalsy : Option String → Bool
  | none => true
  | some s => s.isEmpty

/-- `isPrefixB n h` is true iff the character list `n` is an initial
segment of `h`. -/
def isPrefixB : List Char → List Char → Bool
  | [], _ => true
  | _ :: _, [] => false
  | a :: as, b :: bs => a == b && isPrefixB as bs

/-- `hasSubList n h` is true iff `n` occurs as a contiguous sublist of `h`
(Python `n in h` on strings). -/
def hasSubList (n : List Char) : List Char → Bool
  | [] => isPrefixB n []
  | c :: t => isPrefixB n (c :: t) || hasSubList n t

/-- Python `needle in hay` for strings. -/
def strHasSub (hay needle : String) : Bool :=
  hasSubList needle.data hay.data

/-- Python `str.lower()` (ASCII behaviour suffices for the keyword tables). -/
def lowerStr (s : String) : String :=
  ⟨s.data.map Char.toLower⟩

/-- Python regex class `\s` (whitespace). -/
def isWs (c : Char) : Bool :=
  c == ' ' || c == '\t' || c == '\n' || c == '\r' || c == '\x0b' || c == '\x0c'

/-! ## `sanitize_prompt_for_lyria` (lyria_pool.py lines 19-53)

The seven removal regexes of `sanitize_prompt_for_lyria` are all of a
deterministic shape (a case-insensitive literal, `\s+`, a character class
`[^c]+` closed by a literal character); we compile each one to a token
list and run a maximal-munch matcher, which on these patterns agrees with
Python's backtracking semantics.  The only adjacency of `\s+` with a
class containing whitespace is in `Music for:\s+[^.]+\.`, where
`\s+[^.]+` is equivalent as a matcher to `\s[^.]+` (whitespace is not a
dot), which is the form compiled below. -/

/-- One token of a removal pattern: a case-insensitive literal, `\s+`,
a single `\s`, a greedy `[^c]+`, or a single literal character. -/
inductive PatTok
  | lit (s : List Char)
  | wsPlus
  | wsOne
  | notCharPlus (c : Char)
  | exactChar (c : Char)

/-- Case-insensitive literal match: consume `s` from the head of the
input, comparing lower-cased characters. -/
def matchLit : List Char → List Char → Option (List Char)
  | [], input => some input
  | _ :: _, [] => none
  | a :: as, b :: bs =>
    if a.toLower == b.toLower then matchLit as bs else none

/-- Consume the maximal run of whitespace from the head of the input. -/
def dropWsRun : List Char → List Char
  | [] => []
  | c :: t => if isWs c then dropWsRun t else c :: t

/-- Consume the maximal run of characters different from `c`. -/
def dropNotCharRun (c : Char) : List Char → List Char
  | [] => []
  | d :: t => if d == c then d :: t else dropNotCharRun c t

/-- Match a token list against the head of the input
(maximal munch), returning the remaining input on success. -/
def matchToks : List PatTok → List Char → Option (List Char)
  | [], input => some input
  | .lit s :: rest, input =>
    match matchLit s input with
    | some input2 => matchToks rest input2
    | none => none
  | .wsPlus :: rest, input =>
    match input with
    | [] => none
    | c :: t => if isWs c then matchToks rest (dropWsRun t) else none
  | .wsOne :: rest, input =>
    match input with
    | [] => none
    | c :: t => if isWs c then matchToks rest t else none
  | .notCharPlus c :: rest, input =>
    match input with
    | [] => none
    | d :: t => if d == c then none else matchToks rest (dropNotCharRun c t)
  | .exactChar c :: rest, input =>
    match input with
    | [] => none
    | d :: t => if d == c then matchToks rest t else none

/-- `re.sub(pattern, '', input)`: scan left to right, deleting every
(non-overlapping) match.  `fuel` bounds the recursion; every pattern of
the table consumes at least one character per match, so
`input.length + 1` fuel always suffices. -/
def scanSub (toks : List PatTok) : Nat → List Char → List Char
  | 0, input => input
  | _ + 1, [] => []
  | fuel + 1, c :: t =>
    match matchToks toks (c :: t) with
    | some rest => scanSub toks fuel rest
    | none => c :: scanSub toks fuel t

/-- Delete all occurrences of one pattern (`re.sub(p, '', s)`). -/
def reSubDel (toks : List PatTok) (input : List Char) : List Char :=
  scanSub toks (input.length + 1) input

/-- The `patterns_to_remove` table of `sanitize_prompt_for_lyria`,
compiled in the source order. -/
def patternsToRemove : List (List PatTok) :=
  [ -- titled\s+"[^"]+"
    [.lit "titled".data, .wsPlus, .exactChar '"', .notCharPlus '"', .exactChar '"'],
    -- titled\s+'[^']+'  (the class excludes the single-quote character)
    [.lit "titled".data, .wsPlus, .exactChar '\x27', .notCharPlus '\x27', .exactChar '\x27'],
    -- video\s+titled[^.]+\.
    [.lit "video".data, .wsPlus, .lit "titled".data, .notCharPlus '.', .exactChar '.'],
    -- for\s+a\s+video\s+titled[^.]+\.
    [.lit "for".data, .wsPlus, .lit "a".data, .wsPlus, .lit "video".data, .wsPlus,
     .lit "titled".data, .notCharPlus '.', .exactChar '.'],
    -- Music for:\s+[^.]+\.
    [.lit "music for:".data, .wsOne, .notCharPlus '.', .exactChar '.'],
    -- Current:\s+
    [.lit "current:".data, .wsPlus],
    -- Scene update:\s+
    [.lit "scene update:".data, .wsPlus] ]

/-- `re.sub(r'\s+', ' ', s)`: collapse every maximal whitespace run to a
single space.  The boolean argument records whether the previous
character was whitespace. -/
def collapseWsAux : Bool → List Char → List Char
  | _, [] => []
  | prevWs, c :: t =>
    if isWs c then
      if prevWs then collapseWsAux true t
      else ' ' :: collapseWsAux true t
    else c :: collapseWsAux false t

/-- Python `str.strip()`: remove leading and trailing whitespace. -/
def stripWs (l : List Char) : List Char :=
  ((l.dropWhile isWs).reverse.dropWhile isWs).reverse

/-- `sanitize_prompt_for_lyria` (lyria_pool.py lines 19-53): delete the
pattern table, collapse whitespace, strip, and fall back to a fixed
generic prompt when fewer than 10 characters survive. -/
def sanitize_prompt_for_lyria (prompt : String) : String :=
  let afterPatterns := patternsToRemove.foldl (fun acc toks => reSubDel toks acc) prompt.data
  let sanitized := stripWs (collapseWsAux false afterPatterns)
  if sanitized.length < 10 then "ambient instrumental background music"
  else ⟨sanitized⟩

/-! ## `CompositionContext` (composition_context.py) -/

/-- `UserPrompt` dataclass: text plus a creation timestamp. -/
structure UserPrompt where
  text : String
  timestamp : ℚ
deriving DecidableEq, Repr

/-- `CompositionUpdate` dataclass: analysis text plus a creation timestamp. -/
structure CompositionUpdate where
  analysis : String
  timestamp : ℚ
deriving DecidableEq, Repr

/-- The `current_state` dictionary of `CompositionContext`. -/
structure MusicState where
  mood : String
  tempo : String
  intensity : String
  volume : String
  instruments : List String
  genre : String
deriving DecidableEq, Repr

/-- `CompositionContext` object state (composition_context.py lines 28-43). -/
structure CompositionContext where
  video_title : String
  current_state : MusicState
  user_prompts : List UserPrompt
  recent_updates : List CompositionUpdate
  max_recent_updates : Nat
  max_user_prompts : Nat
  last_frame_analysis : Option String
deriving DecidableEq, Repr

/-- `CompositionContext.__init__(video_title)`. -/
def CompositionContext.init (video_title : String) : CompositionContext where
  video_title := video_title
  current_state :=
    { mood := "neutral", tempo := "moderate", intensity := "medium",
      volume := "moderate", instruments := [], genre := "adaptive" }
  user_prompts := []
  recent_updates := []
  max_recent_updates := 3
  max_user_prompts := 5
  last_frame_analysis := none

/-- `add_user_prompt` (lines 45-51): append, then `pop(0)` once the list
exceeds `max_user_prompts`. -/
def CompositionContext.add_user_prompt (c : CompositionContext) (prompt : String)
    (now : ℚ) : CompositionContext :=
  let ups := c.user_prompts ++ [⟨prompt, now⟩]
  let ups := if ups.length > c.max_user_prompts then ups.tail else ups
  { c with user_prompts := ups }

/-- `_extract_state_from_analysis` (lines 66-92): keyword matching over the
lower-cased analysis text, first matching category per field wins,
unmatched leaves the field unchanged. -/
def extract_state_from_analysis (s : MusicState) (analysis : String) : MusicState :=
  let lower := lowerStr analysis
  let s :=
    if strHasSub lower "intense" || strHasSub lower "dramatic" then { s with mood := "intense" }
    else if strHasSub lower "calm" || strHasSub lower "peaceful" then { s with mood := "calm" }
    else if strHasSub lower "upbeat" || strHasSub lower "energetic" then { s with mood := "upbeat" }
    else if strHasSub lower "dark" || strHasSub lower "suspenseful" then { s with mood := "dark" }
    else s
  let s :=
    if strHasSub lower "fast" || strHasSub lower "quick" then { s with tempo := "fast" }
    else if strHasSub lower "slow" then { s with tempo := "slow" }
    else s
  let s :=
    if strHasSub lower "building" || strHasSub lower "crescendo" then { s with intensity := "building" }
    else if strHasSub lower "peak" || strHasSub lower "climax" then { s with intensity := "peak" }
    else if strHasSub lower "fading" || strHasSub lower "diminishing" then { s with intensity := "fading" }
    else s
  s

/-- `update_from_analysis` (lines 53-64): record the analysis, append to the
rolling `recent_updates` window (`pop(0)` beyond `max_recent_updates`),
and re-extract the descriptor state. -/
def CompositionContext.update_from_analysis (c : CompositionContext) (analysis : String)
    (now : ℚ) : CompositionContext :=
  let ru := c.recent_updates ++ [⟨analysis, now⟩]
  let ru := if ru.length > c.max_recent_updates then ru.tail else ru
  { c with
    last_frame_analysis := some analysis,
    recent_updates := ru,
    current_state := extract_state_from_analysis c.current_state analysis }

/-- Python truthiness of the optional `new_analysis` argument
(`if new_analysis:`). -/
def optStrTruthy (o : Option String) : Bool :=
  match o with
  | none => false
  | some s => !s.isEmpty

/-- `generate_lyria_prompt` (lines 94-124): user prompts first (joined with
". "), then the new analysis if truthy, otherwise a summary of the current
descriptor state; the video title is never included. -/
def CompositionContext.generate_lyria_prompt (c : CompositionContext)
    (new_analysis : Option String) : String :=
  let parts : List String :=
    if c.user_prompts.isEmpty then []
    else ["User requests: " ++
      String.intercalate ". " (c.user_prompts.map UserPrompt.text)]
  let parts : List String :=
    if optStrTruthy new_analysis then parts ++ [new_analysis.getD ""]
    else parts ++
      [c.current_state.mood ++ " mood, " ++ c.current_state.tempo ++ " tempo, " ++
       c.current_state.intensity ++ " intensity"]
  String.intercalate ". " parts ++ "."

/-- `get_initial_prompt` (lines 162-185): user prompts first, then the
metadata prompt if truthy, else the generic fallback sentence. -/
def CompositionContext.get_initial_prompt (c : CompositionContext)
    (metadata_prompt : Option String) : String :=
  let parts : List String :=
    if c.user_prompts.isEmpty then []
    else ["User requests: " ++
      String.intercalate ". " (c.user_prompts.map UserPrompt.text)]
  let parts : List String :=
    if optStrTruthy metadata_prompt then parts ++ [metadata_prompt.getD ""]
    else parts ++
      ["Generate background music for a video. Start with a neutral, adaptive composition."]
  String.intercalate ". " parts ++ "."

/-! ## `LyriaConnection` (lyria_pool.py lines 56-248)

A connection's mutable object state.  The WebSocket handle is modelled by
a boolean (`ws = true` iff `self.ws` is set); the audio callback by a
boolean presence flag; the receive task is not separately modelled
(its lifecycle follows `is_active` on the paths the claims touch). -/

structure LyriaConnection where
  id : Nat
  ws : Bool
  status : String
  is_active : Bool
  session_id : Option String
  on_audio_data : Bool
deriving DecidableEq, Repr

/-- Messages sent over a connection's WebSocket by `start` /
`update_prompt`: a weighted prompt (`client_content.weightedPrompts`) or
the `playback_control: play` message. -/
inductive LyriaMessage
  | weightedPrompt (text : String) (weight : ℚ)
  | playbackPlay
deriving DecidableEq, Repr

/-- `LyriaConnection.start` (lines 156-189): sanitize the prompt, require a
connected WebSocket, set `is_active`, and send the sanitized weighted
prompt (weight 1.0) followed by the play control message. -/
def LyriaConnection.start (conn : LyriaConnection) (initial_prompt : String) :
    Except String (LyriaConnection × List LyriaMessage) :=
  let sanitized := sanitize_prompt_for_lyria initial_prompt
  if !conn.ws then .error "WebSocket not connected"
  else .ok ({ conn with is_active := true },
    [.weightedPrompt sanitized 1, .playbackPlay])

/-- `LyriaConnection.update_prompt` (lines 191-212): sanitize the prompt,
require a connected WebSocket, send the sanitized weighted prompt. -/
def LyriaConnection.update_prompt (conn : LyriaConnection) (new_prompt : String)
    (weight : ℚ) : Except String (List LyriaMessage) :=
  let sanitized := sanitize_prompt_for_lyria new_prompt
  if !conn.ws then .error "WebSocket not connected"
  else .ok [.weightedPrompt sanitized weight]

/-! ## `LyriaConnectionPool` (lyria_pool.py lines 251-397)

The pool holds the `self.pool` list (connections in creation order,
identified by their position) and the `self.active_connections` dict,
modelled as a partial map from session ids to pool indices.  Awaited
network calls (`connect`) are modelled by explicit success flags on the
operations; a failed call raises, so the operation aborts at the point
the source would. -/

/-- A connection as produced by `_create_connection` after a successful
`connect()`: status `"ready"`, inactive, unassigned. -/
def freshConn (i : Nat) : LyriaConnection where
  id := i
  ws := true
  status := "ready"
  is_active := false
  session_id := none
  on_audio_data := false

/-- Pool object state. -/
structure PoolState where
  pool : List LyriaConnection
  active_connections : String → Option Nat
  is_init : Bool

/-- The availability test of `acquire_connection` (line 307):
`conn.status == "ready" and not conn.is_active and not conn.session_id`
(note the Python falsy test on `session_id`). -/
def connAvailable (c : LyriaConnection) : Bool :=
  c.status == "ready" && !c.is_active && optStrFalsy c.session_id

/-- Index of the first available connection at or after position `i`. -/
def findAvailableFrom : List LyriaConnection → Nat → Option Nat
  | [], _ => none
  | c :: rest, i => if connAvailable c then some i else findAvailableFrom rest (i + 1)

/-- Replace the connection at index `i` by `f` of it (mutation of the
shared connection object). -/
def modifyIdx (f : LyriaConnection → LyriaConnection) :
    List LyriaConnection → Nat → List LyriaConnection
  | [], _ => []
  | c :: rest, 0 => f c :: rest
  | c :: rest, n + 1 => c :: modifyIdx f rest n

/-- Pool state after `initialize()` with `pool_size = n` succeeded
(lines 269-282): `n` ready connections, empty assignment map. -/
def initPool (n : Nat) : PoolState where
  pool := (List.range n).map freshConn
  active_connections := fun _ => none
  is_init := true

/-- The assignment step of `acquire_connection` (lines 318-320): set the
connection's `session_id` and store it in `active_connections`. -/
def assignConn (st : PoolState) (idx : Nat) (sid : String) : PoolState :=
  { st with
    pool := modifyIdx (fun c => { c with session_id := some sid }) st.pool idx
    active_connections := fun k => if k = sid then some idx else st.active_connections k }

/-- `acquire_connection` (lines 299-325).  `createOk` is whether the
on-demand `_create_connection` (network `connect`) would succeed; the
asynchronous replacement task it schedules is modelled by the separate
`PoolOp.replenish` operation. -/
def acquire_connection (st : PoolState) (session_id : String) (createOk : Bool) :
    Except String (Nat × PoolState) :=
  if !st.is_init then
    .error "Connection pool not initialized. Call initialize() first."
  else
    match findAvailableFrom st.pool 0 with
    | some idx => .ok (idx, assignConn st idx session_id)
    | none =>
      if createOk then
        let idx := st.pool.length
        let st1 := { st with pool := st.pool ++ [freshConn idx] }
        .ok (idx, assignConn st1 idx session_id)
      else .error "connection create failed"

/-- `release_connection` (lines 327-351).  Unknown session: no-op.
Otherwise stop the connection, close it, reconnect (`reconnectOk` is the
outcome of that awaited `connect()`; on failure the exception propagates
and the later cleanup lines never run, which the `error` branch records),
then reset the connection state and delete the mapping. -/
def release_connection (st : PoolState) (session_id : String) (reconnectOk : Bool) :
    Except PoolState PoolState :=
  match st.active_connections session_id with
  | none => .ok st
  | some idx =>
    -- connection.stop(): is_active := False
    let pool1 := modifyIdx (fun c => { c with is_active := false }) st.pool idx
    -- connection.close(): status := "closed"
    let pool2 := modifyIdx (fun c => { c with status := "closed" }) pool1 idx
    if reconnectOk then
      -- connection.connect() succeeded: status := "ready"
      let pool3 := modifyIdx (fun c => { c with status := "ready" }) pool2 idx
      -- reset connection state and delete the session mapping
      let pool4 := modifyIdx
        (fun c => { c with is_active := false, session_id := none, on_audio_data := false })
        pool3 idx
      .ok { st with
        pool := pool4
        active_connections := fun k => if k = session_id then none else st.active_connections k }
    else
      -- connection.connect() raised: status := "error", exception propagates
      let pool3 := modifyIdx (fun c => { c with status := "error" }) pool2 idx
      .error { st with pool := pool3 }

/-- One pool operation, with the outcomes of its awaited network calls. -/
inductive PoolOp
  | acquire (sid : String) (createOk : Bool)
  | release (sid : String) (reconnectOk : Bool)
  | replenish
deriving DecidableEq, Repr

/-- Apply one operation; a raised exception leaves the state the source
would leave it in (unchanged for `acquire`, partially mutated for
`release`).  `replenish` is the completion of the asynchronous
replacement task scheduled by `acquire_connection` (line 316). -/
def applyPoolOp (st : PoolState) : PoolOp → PoolState
  | .acquire sid createOk =>
    match acquire_connection st sid createOk with
    | .ok (_, st') => st'
    | .error _ => st
  | .release sid reconnectOk =>
    match release_connection st sid reconnectOk with
    | .ok st' => st'
    | .error st' => st'
  | .replenish => { st with pool := st.pool ++ [freshConn st.pool.length] }

/-- Run a sequence of pool operations. -/
def runPoolOps (st : PoolState) (ops : List PoolOp) : PoolState :=
  ops.foldl applyPoolOp st

/-! ## Frames and the shared `FrameExtractor` comparison state
(frame_extractor.py)

Frame bytes are abstract (`Frame := Nat`); the externally computed
difference score of `compare_frames` is an input to each loop iteration.
`compare_frames` catches its own exceptions and returns `1.0`
(lines 370-373), so a comparison failure is modelled as the score `1`. -/

/-- Abstract frame bytes. -/
abbrev Frame := Nat

/-- Result of the external `compare_frames` call as seen by callers:
the score on success, and `1.0` when its internal handler caught an
exception (lines 370-373). -/
def compareFramesResult : Except Unit ℚ → ℚ
  | .ok d => d
  | .error _ => 1

/-- `FrameExtractor.is_significant_change` (lines 375-387), acting on the
process-wide `last_frame` field: first frame is always significant and is
stored; afterwards the frame is stored exactly when the difference
exceeds the threshold.  Returns the decision and the new `last_frame`. -/
def is_significant_change (last_frame : Option Frame) (frame_diff_threshold : ℚ)
    (new_frame : Frame) (diff : Except Unit ℚ) : Bool × Option Frame :=
  match last_frame with
  | none => (true, some new_frame)
  | some lf =>
    if compareFramesResult diff > frame_diff_threshold then (true, some new_frame)
    else (false, some lf)

/-! ## Recorded-video frame scheduler
(`MusicGenerationOrchestrator._process_recorded_video`,
orchestrator.py lines 259-416)

One loop iteration is a function of the scheduler state and of the
iteration's external events: the outcome of frame extraction, the
comparison score, the analysis outcomes, and any concurrent
`update_playback_offset` call landing during the cadence wait or during
the processing awaits.  Exceptions raised inside the `try` body are
caught by the `except` at lines 413-414, which only logs (no sleep). -/

/-- Timing constants hardcoded at orchestrator.py lines 270-272. -/
def first_frame_offset : ℚ := 10

/-- `frame_interval = 10` (orchestrator.py line 271). -/
def frame_interval : ℚ := 10

/-- `processing_buffer = 5` (orchestrator.py line 272). -/
def processing_buffer : ℚ := 5

/-- A concurrent `update_playback_offset` event: the wall-clock time at
which the request ran, and the new offset it carried. -/
structure SeekEvent where
  time : ℚ
  offset : ℚ
deriving DecidableEq, Repr

/-- Scheduler state for one recorded-video session: the loop's local
variables (`playback_offset`, `playback_start_time`), the session-dict
fields they shadow, the session activity flag, the wall clock, the
composition context and the previously sampled frame. -/
structure SchedState where
  playback_offset : ℚ
  playback_start_time : ℚ
  sess_offset : ℚ
  sess_start_time : ℚ
  is_active : Bool
  now : ℚ
  ctx : CompositionContext
  previous_frame : Option Frame

/-- Effect of `update_playback_offset` (orchestrator.py lines 470-471) on
the session fields as the scheduler sees them: the new offset, and
`playback_start_time = now - new_offset`. -/
def applySeek (st : SchedState) (sk : SeekEvent) : SchedState :=
  { st with sess_offset := sk.offset, sess_start_time := sk.time - sk.offset }

/-- External events of one recorded-video iteration. -/
structure RecIterInput where
  seekInWait : Option SeekEvent
  sample : Except Unit Frame
  diffResult : Except Unit ℚ
  delta : Except Unit (String × Bool)
  initAnalysis : Except Unit String
  seekInProcessing : Option SeekEvent
  procTime : ℚ
deriving Repr

/-- Observable effects of one scheduler iteration: the nominal offset a
frame was extracted for (if any), the number of Gemini analysis calls
attempted, the texts pushed to the Lyria connection (after
sanitization), the cadence sleep at the top of the iteration, the sleep
performed after the body or in the exception handler, and whether the
iteration's failure was logged by the handler. -/
structure IterEffects where
  sampledAt : Option ℚ
  analysisCalls : Nat
  promptsSent : List String
  cadenceSleep : ℚ
  postSleep : ℚ
  errorLogged : Bool
deriving DecidableEq, Repr

/-- The tail of a recorded-video iteration (orchestrator.py lines
386-411): update `previous_frame` is already done by the caller; here the
post-processing seek check and the advance of `playback_offset`.  Note
that when a seek is detected here the first `if` (lines 393-398) sets the
local offset to the new offset, so the second test (line 401) is true and
the offset advances past the seek target by `frame_interval`. -/
def recAfterProcess (st : SchedState) (inp : RecIterInput) (sampledAt : Option ℚ)
    (calls : Nat) (prompts : List String) (slept : ℚ) : SchedState × IterEffects :=
  let st := { st with now := st.now + inp.procTime }
  let st :=
    match inp.seekInProcessing with
    | some sk => applySeek st sk
    | none => st
  let current_offset := st.sess_offset
  let st :=
    if current_offset ≠ st.playback_offset then
      { st with playback_offset := current_offset, playback_start_time := st.sess_start_time }
    else st
  let st :=
    if current_offset = st.playback_offset then
      let po := st.playback_offset + frame_interval
      { st with playback_offset := po, sess_offset := po }
    else
      let po := current_offset + frame_interval
      { st with playback_offset := po, sess_offset := po }
  (st, { sampledAt := sampledAt, analysisCalls := calls, promptsSent := prompts,
         cadenceSleep := slept, postSleep := 0, errorLogged := false })

/-- The sampling/comparison/analysis part of a recorded-video iteration
(orchestrator.py lines 312-414).  A raised exception reaches the
`except` of lines 413-414: the iteration ends with the state mutated
only as far as execution got, an error log, and no sleep. -/
def recProcessFrame (frame_diff_threshold : ℚ) (st : SchedState) (inp : RecIterInput)
    (slept : ℚ) : SchedState × IterEffects :=
  match inp.sample with
  | .error _ =>
    (st, { sampledAt := none, analysisCalls := 0, promptsSent := [],
           cadenceSleep := slept, postSleep := 0, errorLogged := true })
  | .ok cf =>
    match st.previous_frame with
    | some _ =>
      let difference := compareFramesResult inp.diffResult
      if difference > frame_diff_threshold then
        match inp.delta with
        | .error _ =>
          (st, { sampledAt := some st.playback_offset, analysisCalls := 1, promptsSent := [],
                 cadenceSleep := slept, postSleep := 0, errorLogged := true })
        | .ok (analysisText, needs_change) =>
          if needs_change then
            let ctx := st.ctx.update_from_analysis analysisText st.now
            let new_prompt := ctx.generate_lyria_prompt (some analysisText)
            recAfterProcess { st with ctx := ctx, previous_frame := some cf } inp
              (some st.playback_offset) 1 [sanitize_prompt_for_lyria new_prompt] slept
          else
            recAfterProcess { st with previous_frame := some cf } inp
              (some st.playback_offset) 1 [] slept
      else
        recAfterProcess { st with previous_frame := some cf } inp
          (some st.playback_offset) 0 [] slept
    | none =>
      match inp.initAnalysis with
      | .error _ =>
        (st, { sampledAt := some st.playback_offset, analysisCalls := 1, promptsSent := [],
               cadenceSleep := slept, postSleep := 0, errorLogged := true })
      | .ok notes =>
        let ctx := st.ctx.update_from_analysis notes st.now
        let new_prompt := ctx.generate_lyria_prompt (some notes)
        recAfterProcess { st with ctx := ctx, previous_frame := some cf } inp
          (some st.playback_offset) 1 [sanitize_prompt_for_lyria new_prompt] slept

/-- One full recorded-video loop iteration (orchestrator.py lines
290-414): compute the cadence wait; if a wait happened, re-read the
session offset afterwards and on a change re-anchor the local timeline
and `continue` without sampling (lines 304-310); otherwise sample and
process.  A seek event can only land "in the wait" when a wait actually
happens (`wait_time > 0`). -/
def recordedIter (frame_diff_threshold : ℚ) (st : SchedState) (inp : RecIterInput) :
    SchedState × IterEffects :=
  let target_processing_time := st.playback_offset - processing_buffer
  let real_time_elapsed := st.now - st.playback_start_time
  let wait_time := target_processing_time - real_time_elapsed
  if 0 < wait_time then
    let stW := { st with now := st.now + wait_time }
    let stW :=
      match inp.seekInWait with
      | some sk => applySeek stW sk
      | none => stW
    let current_offset := stW.sess_offset
    if current_offset ≠ stW.playback_offset then
      ({ stW with playback_offset := current_offset,
                  playback_start_time := stW.sess_start_time },
       { sampledAt := none, analysisCalls := 0, promptsSent := [],
         cadenceSleep := wait_time, postSleep := 0, errorLogged := false })
    else
      recProcessFrame frame_diff_threshold stW inp wait_time
  else
    recProcessFrame frame_diff_threshold st inp 0

/-- Run the recorded-video loop (guard of orchestrator.py line 290) over a
list of iteration inputs, collecting the effects of the iterations that
actually ran. -/
def runRecorded (frame_diff_threshold duration : ℚ) :
    SchedState → List RecIterInput → SchedState × List IterEffects
  | st, [] => (st, [])
  | st, inp :: rest =>
    if st.is_active ∧ st.playback_offset < duration then
      let p := recordedIter frame_diff_threshold st inp
      let q := runRecorded frame_diff_threshold duration p.1 rest
      (q.1, p.2 :: q.2)
    else (st, [])

/-! ## Livestream frame scheduler
(`MusicGenerationOrchestrator._process_livestream`,
orchestrator.py lines 185-257)

The livestream loop samples on a fixed wall-clock period
(`livestream_interval`), gates analysis on `is_significant_change`
(which reads and writes the process-wide `FrameExtractor.last_frame`),
and both its success path (line 253) and its exception handler
(line 257) sleep `livestream_interval`. -/

/-- Livestream scheduler state: composition context, the loop-local
`previous_frame`, the shared `FrameExtractor.last_frame`, the session
activity flag and a wall clock (used only for timestamps). -/
structure LiveState where
  ctx : CompositionContext
  previous_frame : Option Frame
  fx_last_frame : Option Frame
  is_active : Bool
  now : ℚ

/-- External events of one livestream iteration. -/
structure LiveIterInput where
  sample : Except Unit Frame
  diffResult : Except Unit ℚ
  delta : Except Unit (String × Bool)
  initAnalysis : Except Unit String
deriving Repr

/-- One livestream loop iteration (orchestrator.py lines 198-257). -/
def livestreamIter (frame_diff_threshold livestream_interval : ℚ) (st : LiveState)
    (inp : LiveIterInput) : LiveState × IterEffects :=
  match inp.sample with
  | .error _ =>
    (st, { sampledAt := none, analysisCalls := 0, promptsSent := [],
           cadenceSleep := 0, postSleep := livestream_interval, errorLogged := true })
  | .ok cf =>
    match st.previous_frame with
    | some _ =>
      let sig := is_significant_change st.fx_last_frame frame_diff_threshold cf inp.diffResult
      let st := { st with fx_last_frame := sig.2 }
      if sig.1 then
        match inp.delta with
        | .error _ =>
          (st, { sampledAt := none, analysisCalls := 1, promptsSent := [],
                 cadenceSleep := 0, postSleep := livestream_interval, errorLogged := true })
        | .ok (analysisText, needs_change) =>
          if needs_change then
            let ctx := st.ctx.update_from_analysis analysisText st.now
            let new_prompt := ctx.generate_lyria_prompt (some analysisText)
            ({ st with ctx := ctx, previous_frame := some cf },
             { sampledAt := none, analysisCalls := 1,
               promptsSent := [sanitize_prompt_for_lyria new_prompt],
               cadenceSleep := 0, postSleep := livestream_interval, errorLogged := false })
          else
            ({ st with previous_frame := some cf },
             { sampledAt := none, analysisCalls := 1, promptsSent := [],
               cadenceSleep := 0, postSleep := livestream_interval, errorLogged := false })
      else
        ({ st with previous_frame := some cf },
         { sampledAt := none, analysisCalls := 0, promptsSent := [],
           cadenceSleep := 0, postSleep := livestream_interval, errorLogged := false })
    | none =>
      match inp.initAnalysis with
      | .error _ =>
        (st, { sampledAt := none, analysisCalls := 1, promptsSent := [],
               cadenceSleep := 0, postSleep := livestream_interval, errorLogged := true })
      | .ok notes =>
        let ctx := st.ctx.update_from_analysis notes st.now
        let new_prompt := ctx.generate_lyria_prompt (some notes)
        ({ st with ctx := ctx, previous_frame := some cf },
         { sampledAt := none, analysisCalls := 1,
           promptsSent := [sanitize_prompt_for_lyria new_prompt],
           cadenceSleep := 0, postSleep := livestream_interval, errorLogged := false })

/-! ## `MusicGenerationOrchestrator` session bookkeeping
(orchestrator.py lines 22-629)

The orchestrator owns the pool, the `active_sessions` dict (modelled as a
partial map), and the single shared `FrameExtractor` whose `last_frame`
field is the process-wide comparison state.  Awaited external calls are
injected as explicit outcomes; a raised exception ends the operation with
the state mutated only as far as execution got (`Except.error` carries
that state). -/

/-- The dictionary returned by `FrameExtractor.get_video_info`
(frame_extractor.py lines 389-411), restricted to the fields the
orchestrator reads. -/
structure VideoInfo where
  title : String
  duration : ℚ
  is_live : Bool
  author : String
deriving DecidableEq, Repr

/-- One entry of `orchestrator.active_sessions` (the session dict built at
orchestrator.py lines 139-152, plus the keys added later:
`playback_offset` / `playback_start_time` by the recorded loop or a seek,
`stopped_at` by `stop_music_generation`). -/
structure OrchSession where
  session_id : String
  video_url : String
  video_info : VideoInfo
  ctx : CompositionContext
  conn_idx : Nat
  is_live : Bool
  is_active : Bool
  started_at : ℚ
  stopped_at : Option ℚ
  playback_offset : Option ℚ
  playback_start_time : Option ℚ

/-- Orchestrator object state. -/
structure OrchState where
  pool : PoolState
  active_sessions : String → Option OrchSession
  fx_last_frame : Option Frame
  is_init : Bool

/-- Orchestrator state after a successful `initialize()` with a pool of
`n` connections. -/
def initOrch (n : Nat) : OrchState where
  pool := initPool n
  active_sessions := fun _ => none
  fx_last_frame := none
  is_init := true

/-- `cleanup_session` (orchestrator.py lines 591-595): unconditionally
remove the session record. -/
def cleanup_session (st : OrchState) (session_id : String) : OrchState :=
  { st with active_sessions :=
      fun k => if k = session_id then none else st.active_sessions k }

/-- `stop_music_generation` (orchestrator.py lines 562-589): unknown
session is a no-op; otherwise mark inactive, release the connection
(an exception there propagates, skipping `stopped_at` and the frame
reset), record `stopped_at`, keep the session record, and reset the
shared `FrameExtractor` comparison state (line 587). -/
def stop_music_generation (st : OrchState) (session_id : String) (now : ℚ)
    (reconnectOk : Bool) : Except OrchState OrchState :=
  match st.active_sessions session_id with
  | none => .ok st
  | some sess =>
    let sessions1 := fun k =>
      if k = session_id then some { sess with is_active := false }
      else st.active_sessions k
    match release_connection st.pool session_id reconnectOk with
    | .error p => .error { st with pool := p, active_sessions := sessions1 }
    | .ok p =>
      let sessions2 := fun k =>
        if k = session_id then some { sess with is_active := false, stopped_at := some now }
        else st.active_sessions k
      .ok { st with pool := p, active_sessions := sessions2, fx_last_frame := none }

/-- `update_playback_offset` (orchestrator.py lines 446-485): unknown
session raises; otherwise set the session's `playback_offset` to the new
offset and its `playback_start_time` to `now - new_offset`. -/
def update_playback_offset (st : OrchState) (session_id : String) (now new_offset : ℚ) :
    Except String OrchState :=
  match st.active_sessions session_id with
  | none => .error "Session not found"
  | some sess =>
    let sess' := { sess with playback_offset := some new_offset,
                             playback_start_time := some (now - new_offset) }
    .ok { st with active_sessions := fun k =>
      if k = session_id then some sess' else st.active_sessions k }

/-- Outcomes of the awaited external calls made by
`start_music_generation`, in call order. -/
structure StartEnv where
  stopReconnectOk : Bool
  video_info : Except Unit VideoInfo
  createOk : Bool
  metadata_prompt : Except Unit String
  lyriaStartOk : Bool

/-- `start_music_generation` (orchestrator.py lines 47-168): optional
restart cleanup of an existing session, video-info lookup, context
creation, pool acquisition, audio-callback registration, metadata
analysis, `lyria_connection.start`, and only then the session record.
The `except` at lines 166-168 only logs and re-raises, so a failure after
acquisition leaves the connection assigned in the pool.  A send failure
inside `LyriaConnection.start` happens after `is_active = True`
(lyria_pool.py line 165 precedes the sends). -/
def start_music_generation (st : OrchState) (session_id video_url : String) (now : ℚ)
    (env : StartEnv) : Except OrchState OrchState :=
  if !st.is_init then .error st
  else
    -- restart path (lines 65-75)
    let cleaned : Except OrchState OrchState :=
      match st.active_sessions session_id with
      | some old =>
        if old.is_active then
          match stop_music_generation st session_id now env.stopReconnectOk with
          | .error st' => .error st'
          | .ok st' => .ok (cleanup_session st' session_id)
        else .ok (cleanup_session st session_id)
      | none => .ok st
    match cleaned with
    | .error st' => .error st'
    | .ok st0 =>
      match env.video_info with
      | .error _ => .error st0
      | .ok vinfo =>
        let ctx := CompositionContext.init vinfo.title
        match acquire_connection st0.pool session_id env.createOk with
        | .error _ => .error st0
        | .ok (idx, pool1) =>
          -- lyria_connection.on_audio_data = relay_audio (line 118)
          let pool2 := { pool1 with
            pool := modifyIdx (fun c => { c with on_audio_data := true }) pool1.pool idx }
          let st1 := { st0 with pool := pool2 }
          match env.metadata_prompt with
          | .error _ => .error st1
          | .ok mp =>
            let _initial_prompt := ctx.get_initial_prompt (some mp)
            match pool2.pool.get? idx with
            | none => .error st1
            | some conn =>
              if !conn.ws then .error st1
              else
                let pool3 := { pool2 with
                  pool := modifyIdx (fun c => { c with is_active := true }) pool2.pool idx }
                let st2 := { st1 with pool := pool3 }
                if !env.lyriaStartOk then .error st2
                else
                  let sess : OrchSession :=
                    { session_id := session_id, video_url := video_url,
                      video_info := vinfo, ctx := ctx, conn_idx := idx,
                      is_live := vinfo.is_live, is_active := true,
                      started_at := now, stopped_at := none,
                      playback_offset := none, playback_start_time := none }
                  .ok { st2 with active_sessions := fun k =>
                    if k = session_id then some sess else st2.active_sessions k }

/-! ## Invariant predicates for the pool state machine -/

/-- Every session in `active_connections` maps to an existing pool
connection whose `session_id` is that session.  (Since the map is a
function, this makes two distinct mapped sessions name distinct
connections.) -/
def MappedOwn (st : PoolState) : Prop :=
  ∀ s idx, st.active_connections s = some idx →
    ∃ c, st.pool.get? idx = some c ∧ c.session_id = some s

/-- Every mapped connection exists and has status `"ready"`. -/
def MappedReady (st : PoolState) : Prop :=
  ∀ s idx, st.active_connections s = some idx →
    ∃ c, st.pool.get? idx = some c ∧ c.status = "ready"

/-- The pool invariant used for the assignment claims: the empty session
id is never a key of `active_connections`, and every mapped connection
records its session. -/
def PoolInv (st : PoolState) : Prop :=
  st.active_connections "" = none ∧ MappedOwn st

/-- An operation whose `release` reconnect (if it is a release) succeeds. -/
def opReleaseOk : PoolOp → Prop
  | .release _ ok => ok = true
  | _ => True

/-- An operation whose session id (if it has one) is nonempty. -/
def opNonemptySid : PoolOp → Prop
  | .acquire sid _ => sid ≠ ""
  | .release _ _ => True
  | .replenish => True

/-! # Theorems -/

/-- C4: the composed outbound prompt never contains the video title
field: for every optional analysis argument, two composition contexts
that are identical except for their `video_title` value produce identical
`generate_lyria_prompt` output. -/
theorem C4_generate_lyria_prompt_ignores_title
    (c : CompositionContext) (t : String) (a : Option String) :
    CompositionContext.generate_lyria_prompt { c with video_title := t } a =
      c.generate_lyria_prompt a := rfl

/-- C9: both `LyriaConnection.start` and `LyriaConnection.update_prompt`
send exactly the `sanitize_prompt_for_lyria` image of their argument,
and every sanitized prompt has length at least 10 (the fixed fallback is
substituted whenever sanitization strips the input below 10
characters). -/
theorem C9_prompts_sanitized_and_long_enough :
    (∀ (conn : LyriaConnection) (p : String), conn.ws = true →
        conn.start p = .ok ({ conn with is_active := true },
          [.weightedPrompt (sanitize_prompt_for_lyria p) 1, .playbackPlay]))
    ∧ (∀ (conn : LyriaConnection) (p : String) (w : ℚ), conn.ws = true →
        conn.update_prompt p w = .ok [.weightedPrompt (sanitize_prompt_for_lyria p) w])
    ∧ (∀ p : String, 10 ≤ (sanitize_prompt_for_lyria p).length) := by
  refine ⟨?_, ?_, ?_⟩
  · intro conn p h
    simp [LyriaConnection.start, h]
  · intro conn p w h
    simp [LyriaConnection.update_prompt, h]
  · intro p
    unfold sanitize_prompt_for_lyria
    set s := stripWs (collapseWsAux false
      (patternsToRemove.foldl (fun acc toks => reSubDel toks acc) p.data)) with hs
    by_cases h : s.length < 10
    · simp only [h, if_true]
      decide
    · simp only [h, if_false]
      show 10 ≤ s.length
      omega

/-- C9 witness: concrete evaluation of `update_prompt` on a prompt that
the sanitizer strips below 10 characters, through the main theorem. -/
theorem C9_witness :
    LyriaConnection.update_prompt
        { id := 0, ws := true, status := "ready", is_active := false,
          session_id := none, on_audio_data := false } "Current: hi" 1
      = .ok [.weightedPrompt (sanitize_prompt_for_lyria "Current: hi") 1]
    ∧ 10 ≤ (sanitize_prompt_for_lyria "Current: hi").length
    ∧ sanitize_prompt_for_lyria "Current: hi" = "ambient instrumental background music" :=
  ⟨C9_prompts_sanitized_and_long_enough.2.1 _ _ _ rfl,
   C9_prompts_sanitized_and_long_enough.2.2 _, by decide⟩

/-- C1 counterexample: from a freshly initialized pool of one
connection, `acquire_connection` assigns the connection to the session
but leaves its status `"ready"` and its `is_active` flag false — the
connection present in `active_connections` does not have status
`"active"`, refuting the claim at this reachable state. -/
theorem C1_counterexample :
    ∃ st', acquire_connection (initPool 1) "s1" true = .ok (0, st')
      ∧ st'.active_connections "s1" = some 0
      ∧ st'.pool.get? 0 =
          some ({ id := 0, ws := true, status := "ready", is_active := false,
                  session_id := some "s1", on_audio_data := false })
      ∧ (st'.pool.get? 0).map LyriaConnection.status ≠ some "active"
      ∧ (st'.pool.get? 0).map LyriaConnection.is_active = some false :=
  ⟨assignConn (initPool 1) 0 "s1", rfl, rfl, rfl, by decide, rfl⟩

/-- C2 counterexample: the availability filter of `acquire_connection`
uses the Python falsy test `not conn.session_id`, so a connection
assigned to the empty-string session id still counts as unassigned;
acquiring for `""` and then for `"x"` hands the same connection (index 0)
to the two distinct session ids. -/
theorem C2_counterexample :
    ∃ st1 st2,
      acquire_connection (initPool 1) "" true = .ok (0, st1)
      ∧ acquire_connection st1 "x" true = .ok (0, st2)
      ∧ st2.active_connections "" = some 0
      ∧ st2.active_connections "x" = some 0
      ∧ ("" : String) ≠ "x" :=
  ⟨assignConn (initPool 1) 0 "", assignConn (assignConn (initPool 1) 0 "") 0 "x",
    rfl, rfl, rfl, rfl, by decide⟩

/-- C6: evaluating `start_music_generation` at a failing input — a fresh
session on a one-connection pool where `lyria_connection.start` raises —
shows the raised error leaves the acquired connection still assigned to
the session in the pool (an orphan), while no session record was
created.  The pool assignment is not left as it was before the call. -/
theorem C6_start_failure_leaves_orphan :
    ∃ st', start_music_generation (initOrch 1) "s1" "http://v" 0
        { stopReconnectOk := true, video_info := .ok ⟨"T", 100, false, "A"⟩,
          createOk := true, metadata_prompt := .ok "calm piano", lyriaStartOk := false }
        = .error st'
      ∧ st'.pool.active_connections "s1" = some 0
      ∧ (st'.pool.pool.get? 0).map LyriaConnection.session_id = some (some "s1")
      ∧ st'.active_sessions "s1" = none
      ∧ (initOrch 1).pool.active_connections "s1" = none := by
  refine ⟨_, rfl, rfl, ?_, rfl, rfl⟩
  decide

/-- C5 counterexample: in recorded-video mode a failing iteration
performs no sleep at all.  With the scheduler already past its target
time (`wait_time ≤ 0`) and frame extraction raising, the iteration's
total sleep is zero (`cadenceSleep = 0`, `postSleep = 0`): the loop does
not continue "after a back-off sleep" as the claim states for both
modes.  (The livestream handler, by contrast, sleeps
`livestream_interval`.) -/
theorem C5_counterexample :
    recordedIter (1/5)
      { playback_offset := 10, playback_start_time := 0, sess_offset := 10,
        sess_start_time := 0, is_active := true, now := 100,
        ctx := CompositionContext.init "T", previous_frame := none }
      { seekInWait := none, sample := .error (), diffResult := .ok 0,
        delta := .ok ("", false), initAnalysis := .ok "", seekInProcessing := none,
        procTime := 0 }
    = ({ playback_offset := 10, playback_start_time := 0, sess_offset := 10,
         sess_start_time := 0, is_active := true, now := 100,
         ctx := CompositionContext.init "T", previous_frame := none },
       { sampledAt := none, analysisCalls := 0, promptsSent := [],
         cadenceSleep := 0, postSleep := 0, errorLogged := true }) := by
  simp only [recordedIter, recProcessFrame]
  norm_num [processing_buffer]

/-- The effects record produced by `recAfterProcess` is exactly its
arguments (the post-processing branches only touch the state). -/
theorem recAfterProcess_effects (st : SchedState) (inp : RecIterInput)
    (a : Option ℚ) (c : Nat) (p : List String) (s : ℚ) :
    (recAfterProcess st inp a c p s).2 =
      { sampledAt := a, analysisCalls := c, promptsSent := p,
        cadenceSleep := s, postSleep := 0, errorLogged := false } := by
  unfold recAfterProcess
  rcases inp.seekInProcessing with _ | sk <;> rfl

/-- `recAfterProcess` never changes the composition context. -/
theorem recAfterProcess_ctx (st : SchedState) (inp : RecIterInput)
    (a : Option ℚ) (c : Nat) (p : List String) (s : ℚ) :
    (recAfterProcess st inp a c p s).1.ctx = st.ctx := by
  unfold recAfterProcess
  rcases inp.seekInProcessing with _ | sk <;> dsimp only <;> split <;> split <;> rfl

/-- C8: in the recorded-video scheduler, when the sampled frame's
difference score against the previous frame does not exceed the
threshold, the iteration makes zero analysis calls, sends zero prompt
updates, and leaves the composition context unchanged. -/
theorem C8_below_threshold_skips_analysis (thr : ℚ) (st : SchedState)
    (inp : RecIterInput) (pf cf : Frame) (d : ℚ)
    (hprev : st.previous_frame = some pf)
    (hsample : inp.sample = .ok cf)
    (hdiff : inp.diffResult = .ok d)
    (hle : d ≤ thr)
    (hseek : inp.seekInWait = none)
    (hsess : st.sess_offset = st.playback_offset) :
    (recordedIter thr st inp).2.analysisCalls = 0
    ∧ (recordedIter thr st inp).2.promptsSent = []
    ∧ (recordedIter thr st inp).2.sampledAt = some st.playback_offset
    ∧ (recordedIter thr st inp).1.ctx = st.ctx := by
  obtain ⟨po, pst, so, sst, act, now, ctx, prev⟩ := st
  obtain ⟨siw, sam, dif, del, ia, sip, pt⟩ := inp
  dsimp only at hprev hsample hdiff hseek hsess
  subst hprev hsample hdiff hseek hsess
  unfold recordedIter
  dsimp only
  have hnotgt : ¬ d > thr := not_lt.mpr hle
  split
  · rw [if_neg (by simp)]
    unfold recProcessFrame
    dsimp only [compareFramesResult]
    rw [if_neg hnotgt]
    exact ⟨by rw [recAfterProcess_effects], by rw [recAfterProcess_effects],
      by rw [recAfterProcess_effects], by rw [recAfterProcess_ctx]⟩
  · unfold recProcessFrame
    dsimp only [compareFramesResult]
    rw [if_neg hnotgt]
    exact ⟨by rw [recAfterProcess_effects], by rw [recAfterProcess_effects],
      by rw [recAfterProcess_effects], by rw [recAfterProcess_ctx]⟩

/-- C8 witness: a concrete below-threshold sample (score `1/20 = 0.05`
against threshold `1/5 = 0.20`) triggers no analysis and no prompt
update. -/
theorem C8_witness :
    (recordedIter (1/5)
      { playback_offset := 20, playback_start_time := 0, sess_offset := 20,
        sess_start_time := 0, is_active := true, now := 16,
        ctx := CompositionContext.init "T", previous_frame := some 1 }
      { seekInWait := none, sample := .ok 2, diffResult := .ok (1/20),
        delta := .ok ("x", true), initAnalysis := .ok "x", seekInProcessing := none,
        procTime := 0 }).2.analysisCalls = 0
    ∧ (recordedIter (1/5)
      { playback_offset := 20, playback_start_time := 0, sess_offset := 20,
        sess_start_time := 0, is_active := true, now := 16,
        ctx := CompositionContext.init "T", previous_frame := some 1 }
      { seekInWait := none, sample := .ok 2, diffResult := .ok (1/20),
        delta := .ok ("x", true), initAnalysis := .ok "x", seekInProcessing := none,
        procTime := 0 }).2.promptsSent = [] := by
  have h := C8_below_threshold_skips_analysis (1/5)
    { playback_offset := 20, playback_start_time := 0, sess_offset := 20,
      sess_start_time := 0, is_active := true, now := 16,
      ctx := CompositionContext.init "T", previous_frame := some 1 }
    { seekInWait := none, sample := .ok 2, diffResult := .ok (1/20),
      delta := .ok ("x", true), initAnalysis := .ok "x", seekInProcessing := none,
      procTime := 0 }
    1 2 (1/20) rfl rfl rfl (by norm_num) rfl rfl
  exact ⟨h.1, h.2.1⟩

/-- C10: `stop_music_generation` on any existing session (with the
release reconnect succeeding) returns normally, resets the process-wide
`FrameExtractor.last_frame` comparison state to `none`, and still keeps
the (stopped) session's own record — the mutation is outside the session
record.  The second part shows the field it clears is exactly the state
`is_significant_change` reads and writes for every session. -/
theorem C10_stop_resets_shared_frame_state :
    (∀ (st : OrchState) (sid : String) (now : ℚ) (sess : OrchSession),
      st.active_sessions sid = some sess →
      ∃ st', stop_music_generation st sid now true = .ok st'
        ∧ st'.fx_last_frame = none
        ∧ st'.active_sessions sid =
            some { sess with is_active := false, stopped_at := some now })
    ∧ (∀ (thr : ℚ) (f g : Frame) (dr : Except Unit ℚ),
        is_significant_change none thr f dr = (true, some f)
        ∧ (compareFramesResult dr > thr →
            is_significant_change (some g) thr f dr = (true, some f))) := by
  constructor
  · intro st sid now sess h
    unfold stop_music_generation
    rw [h]
    dsimp only
    unfold release_connection
    rcases hc : st.pool.active_connections sid with _ | idx
    · exact ⟨_, rfl, rfl, by simp⟩
    · exact ⟨_, rfl, rfl, by simp⟩
  · intro thr f g dr
    refine ⟨rfl, fun h => ?_⟩
    unfold is_significant_change
    dsimp only
    rw [if_pos h]

/-- C10 witness: stopping session `"a"` clears `last_frame` that was set
while processing session `"b"`'s frames. -/
theorem C10_witness :
    ∃ st', stop_music_generation
        { pool := initPool 1,
          active_sessions := fun k =>
            if k = "a" then
              some { session_id := "a", video_url := "u", video_info := ⟨"T", 100, false, "A"⟩,
                     ctx := CompositionContext.init "T", conn_idx := 0, is_live := false,
                     is_active := true, started_at := 0, stopped_at := none,
                     playback_offset := none, playback_start_time := none }
            else none,
          fx_last_frame := some 7, is_init := true } "a" 1 true = .ok st'
      ∧ st'.fx_last_frame = none := by
  obtain ⟨st', h1, h2, _⟩ := C10_stop_resets_shared_frame_state.1
    { pool := initPool 1,
      active_sessions := fun k =>
        if k = "a" then
          some { session_id := "a", video_url := "u", video_info := ⟨"T", 100, false, "A"⟩,
                 ctx := CompositionContext.init "T", conn_idx := 0, is_live := false,
                 is_active := true, started_at := 0, stopped_at := none,
                 playback_offset := none, playback_start_time := none }
        else none,
      fx_last_frame := some 7, is_init := true } "a" 1
    { session_id := "a", video_url := "u", video_info := ⟨"T", 100, false, "A"⟩,
      ctx := CompositionContext.init "T", conn_idx := 0, is_live := false,
      is_active := true, started_at := 0, stopped_at := none,
      playback_offset := none, playback_start_time := none }
    (by simp)
  exact ⟨st', h1, h2⟩

/-- Appending to a list that holds the last `K` elements of `ys` and then
dropping the head when capacity `K` is exceeded yields the last `K`
elements of `ys ++ [x]` (the append-then-`pop(0)` step of
`add_user_prompt` / `update_from_analysis`). -/
theorem boundedAppend_drop {α : Type} (K : Nat) (ys : List α) (x : α) :
    (if K < (ys.drop (ys.length - K) ++ [x]).length
      then (ys.drop (ys.length - K) ++ [x]).tail
      else ys.drop (ys.length - K) ++ [x])
    = (ys ++ [x]).drop ((ys.length + 1) - K) := by
  rcases le_or_lt K ys.length with h | h
  · have h1 : (ys.drop (ys.length - K)).length = K := by
      rw [List.length_drop]; omega
    have hcond : K < (ys.drop (ys.length - K) ++ [x]).length := by
      rw [List.length_append, h1]; simp
    rw [if_pos hcond]
    rcases Nat.eq_zero_or_pos K with hK | hK
    · subst hK
      have h2 : ys.drop (ys.length - 0) = [] := by
        simp [List.drop_length]
      have h3 : (ys ++ [x]).drop (ys.length + 1 - 0) = [] := by
        apply List.drop_eq_nil_of_le
        simp
      rw [h2, h3]
      rfl
    · have h2 : 1 ≤ (ys.drop (ys.length - K)).length := by omega
      rw [← List.drop_one, List.drop_append_of_le_length h2, List.drop_drop,
        List.drop_append_of_le_length (by omega : ys.length + 1 - K ≤ ys.length)]
      congr 2
      omega
  · have h0 : ys.length - K = 0 := by omega
    have hcond : ¬ K < (ys.drop (ys.length - K) ++ [x]).length := by
      rw [List.length_append, List.length_drop]
      simp only [List.length_cons, List.length_nil]
      omega
    rw [if_neg hcond, h0]
    have h1 : ys.length + 1 - K = 0 := by omega
    rw [h1]
    rfl

/-- Folding `add_user_prompt` keeps `user_prompts` equal to the last
`max_user_prompts` entries of the full insertion sequence (and preserves
the capacity field). -/
theorem fold_add_user_prompt (ps : List (String × ℚ)) :
    ∀ (c : CompositionContext) (ys : List UserPrompt),
      c.user_prompts = ys.drop (ys.length - c.max_user_prompts) →
      ((ps.foldl (fun a p => a.add_user_prompt p.1 p.2) c).user_prompts
          = (ys ++ ps.map fun p => (⟨p.1, p.2⟩ : UserPrompt)).drop
              ((ys.length + ps.length) - c.max_user_prompts)
        ∧ (ps.foldl (fun a p => a.add_user_prompt p.1 p.2) c).max_user_prompts
            = c.max_user_prompts) := by
  induction ps with
  | nil =>
    intro c ys h
    simpa using h
  | cons p ps ih =>
    intro c ys h
    have hstep : (c.add_user_prompt p.1 p.2).user_prompts
        = (ys ++ [(⟨p.1, p.2⟩ : UserPrompt)]).drop ((ys.length + 1) - c.max_user_prompts) := by
      show (if (c.user_prompts ++ [(⟨p.1, p.2⟩ : UserPrompt)]).length > c.max_user_prompts
            then (c.user_prompts ++ [(⟨p.1, p.2⟩ : UserPrompt)]).tail
            else c.user_prompts ++ [(⟨p.1, p.2⟩ : UserPrompt)]) = _
      rw [h]
      exact boundedAppend_drop c.max_user_prompts ys ⟨p.1, p.2⟩
    have hinv : (c.add_user_prompt p.1 p.2).user_prompts
        = (ys ++ [(⟨p.1, p.2⟩ : UserPrompt)]).drop
            ((ys ++ [(⟨p.1, p.2⟩ : UserPrompt)]).length
              - (c.add_user_prompt p.1 p.2).max_user_prompts) := by
      rw [hstep]
      congr 1
      simp [CompositionContext.add_user_prompt]
    obtain ⟨h1, h2⟩ := ih (c.add_user_prompt p.1 p.2) (ys ++ [(⟨p.1, p.2⟩ : UserPrompt)]) hinv
    constructor
    · rw [List.foldl_cons, h1]
      rw [List.append_assoc]
      simp only [List.singleton_append, List.map_cons, List.length_append,
        List.length_cons, List.length_nil]
      have hmax : (c.add_user_prompt p.1 p.2).max_user_prompts = c.max_user_prompts := rfl
      rw [hmax]
      congr 1
      omega
    · rw [List.foldl_cons, h2]
      rfl

/-- Folding `update_from_analysis` keeps `recent_updates` equal to the
last `max_recent_updates` entries of the full analysis sequence (and
preserves the capacity field). -/
theorem fold_update_from_analysis (as : List (String × ℚ)) :
    ∀ (c : CompositionContext) (ys : List CompositionUpdate),
      c.recent_updates = ys.drop (ys.length - c.max_recent_updates) →
      ((as.foldl (fun a p => a.update_from_analysis p.1 p.2) c).recent_updates
          = (ys ++ as.map fun p => (⟨p.1, p.2⟩ : CompositionUpdate)).drop
              ((ys.length + as.length) - c.max_recent_updates)
        ∧ (as.foldl (fun a p => a.update_from_analysis p.1 p.2) c).max_recent_updates
            = c.max_recent_updates) := by
  induction as with
  | nil =>
    intro c ys h
    simpa using h
  | cons p ps ih =>
    intro c ys h
    have hstep : (c.update_from_analysis p.1 p.2).recent_updates
        = (ys ++ [(⟨p.1, p.2⟩ : CompositionUpdate)]).drop
            ((ys.length + 1) - c.max_recent_updates) := by
      show (if (c.recent_updates ++ [(⟨p.1, p.2⟩ : CompositionUpdate)]).length
              > c.max_recent_updates
            then (c.recent_updates ++ [(⟨p.1, p.2⟩ : CompositionUpdate)]).tail
            else c.recent_updates ++ [(⟨p.1, p.2⟩ : CompositionUpdate)]) = _
      rw [h]
      exact boundedAppend_drop c.max_recent_updates ys ⟨p.1, p.2⟩
    have hinv : (c.update_from_analysis p.1 p.2).recent_updates
        = (ys ++ [(⟨p.1, p.2⟩ : CompositionUpdate)]).drop
            ((ys ++ [(⟨p.1, p.2⟩ : CompositionUpdate)]).length
              - (c.update_from_analysis p.1 p.2).max_recent_updates) := by
      rw [hstep]
      congr 1
      simp [CompositionContext.update_from_analysis]
    obtain ⟨h1, h2⟩ :=
      ih (c.update_from_analysis p.1 p.2) (ys ++ [(⟨p.1, p.2⟩ : CompositionUpdate)]) hinv
    constructor
    · rw [List.foldl_cons, h1]
      rw [List.append_assoc]
      simp only [List.singleton_append, List.map_cons, List.length_append,
        List.length_cons, List.length_nil]
      have hmax : (c.update_from_analysis p.1 p.2).max_recent_updates
          = c.max_recent_updates := rfl
      rw [hmax]
      congr 1
      omega
    · rw [List.foldl_cons, h2]
      rfl

/-- C7: for every sequence of `add_user_prompt` calls on a fresh context,
the retained user-prompt list is exactly the last 5 prompts in insertion
order (oldest evicted first), and for every sequence of
`update_from_analysis` calls the retained analysis list is exactly the
last 3 analyses in insertion order. -/
theorem C7_capacity_bounds_exact (title : String) (ps as : List (String × ℚ)) :
    (ps.foldl (fun c p => c.add_user_prompt p.1 p.2)
        (CompositionContext.init title)).user_prompts
      = (ps.map fun p => (⟨p.1, p.2⟩ : UserPrompt)).drop (ps.length - 5)
    ∧ (as.foldl (fun c p => c.update_from_analysis p.1 p.2)
        (CompositionContext.init title)).recent_updates
      = (as.map fun p => (⟨p.1, p.2⟩ : CompositionUpdate)).drop (as.length - 3) := by
  constructor
  · have := (fold_add_user_prompt ps (CompositionContext.init title) [] (by rfl)).1
    simpa [CompositionContext.init] using this
  · have := (fold_update_from_analysis as (CompositionContext.init title) [] (by rfl)).1
    simpa [CompositionContext.init] using this

/-- A successful `get?` bounds the index. -/
theorem get?_some_lt {α : Type} {l : List α} {j : Nat} {c : α}
    (h : l.get? j = some c) : j < l.length := by
  by_contra hle
  push_neg at hle
  rw [List.get?_eq_none.mpr hle] at h
  cases h

/-- `modifyIdx` only changes the entry at its index. -/
theorem get?_modifyIdx (f : LyriaConnection → LyriaConnection) :
    ∀ (l : List LyriaConnection) (i j : Nat),
      (modifyIdx f l i).get? j = if i = j then (l.get? j).map f else l.get? j := by
  intro l
  induction l with
  | nil =>
    intro i j
    cases i <;> simp [modifyIdx]
  | cons c rest ih =>
    intro i j
    cases i with
    | zero =>
      cases j with
      | zero => simp [modifyIdx]
      | succ j => simp [modifyIdx]
    | succ i =>
      cases j with
      | zero => simp [modifyIdx]
      | succ j =>
        have := ih i j
        simp only [modifyIdx, List.get?_cons_succ, Nat.add_right_cancel_iff]
        rw [this]

/-- `findAvailableFrom` returns an index of an available connection. -/
theorem findAvailableFrom_spec :
    ∀ (l : List LyriaConnection) (i j : Nat),
      findAvailableFrom l i = some j →
      i ≤ j ∧ ∃ c, l.get? (j - i) = some c ∧ connAvailable c = true := by
  intro l
  induction l with
  | nil =>
    intro i j h
    cases h
  | cons c rest ih =>
    intro i j h
    unfold findAvailableFrom at h
    by_cases hc : connAvailable c
    · rw [if_pos hc] at h
      obtain rfl : i = j := by injection h
      exact ⟨le_refl _, c, by simp, hc⟩
    · rw [if_neg hc] at h
      obtain ⟨hij, c', hg, hav⟩ := ih (i + 1) j h
      refine ⟨by omega, c', ?_, hav⟩
      have hcalc : j - i = (j - (i + 1)) + 1 := by omega
      rw [hcalc]
      simpa using hg

/-- The two ways `acquire_connection` can succeed: an available pool
connection was found and assigned, or no connection was available and a
fresh one was created, appended, and assigned. -/
theorem acquire_ok_cases (st : PoolState) (sid : String) (createOk : Bool) (idx : Nat)
    (st' : PoolState) (h : acquire_connection st sid createOk = .ok (idx, st')) :
    (∃ c, st.pool.get? idx = some c ∧ connAvailable c = true
      ∧ st' = assignConn st idx sid)
    ∨ (idx = st.pool.length ∧
        st' = assignConn { st with pool := st.pool ++ [freshConn idx] } idx sid) := by
  unfold acquire_connection at h
  split at h
  · cases h
  · split at h
    · rename_i j hfind
      injection h with h'
      injection h' with h1 h2
      subst h1
      subst h2
      obtain ⟨-, c, hg, hav⟩ := findAvailableFrom_spec st.pool 0 _ hfind
      simp only [Nat.sub_zero] at hg
      exact .inl ⟨c, hg, hav, rfl⟩
    · split at h
      · injection h with h'
        injection h' with h1 h2
        subst h1
        subst h2
        exact .inr ⟨rfl, rfl⟩
      · cases h

/-- Unpacking the availability filter of `acquire_connection`. -/
theorem connAvailable_fields {c : LyriaConnection} (h : connAvailable c = true) :
    c.status = "ready" ∧ c.is_active = false ∧ optStrFalsy c.session_id = true := by
  unfold connAvailable at h
  simp only [Bool.and_eq_true, beq_iff_eq, Bool.not_eq_true'] at h
  exact ⟨h.1.1, h.1.2, h.2⟩

/-- Every pool operation preserves `MappedReady`, provided the reconnect
inside any `release` succeeds. -/
theorem mappedReady_applyPoolOp (st : PoolState) (op : PoolOp)
    (hop : opReleaseOk op) (h : MappedReady st) : MappedReady (applyPoolOp st op) := by
  cases op with
  | acquire sid createOk =>
    dsimp only [applyPoolOp]
    rcases hacq : acquire_connection st sid createOk with e | p
    · exact h
    · obtain ⟨idx, st'⟩ := p
      rcases acquire_ok_cases st sid createOk idx st' hacq with
        ⟨c, hg, hav, rfl⟩ | ⟨hlen, rfl⟩
      · intro s j hm
        dsimp only [assignConn] at hm ⊢
        rw [get?_modifyIdx]
        by_cases hs : s = sid
        · subst hs
          rw [if_pos rfl] at hm
          injection hm with hm
          subst hm
          rw [if_pos rfl, hg]
          exact ⟨_, rfl, (connAvailable_fields hav).1⟩
        · rw [if_neg hs] at hm
          obtain ⟨c', hg', hst'⟩ := h s j hm
          by_cases hij : idx = j
          · subst hij
            rw [if_pos rfl, hg']
            exact ⟨_, rfl, hst'⟩
          · rw [if_neg hij]
            exact ⟨c', hg', hst'⟩
      · intro s j hm
        dsimp only [assignConn] at hm ⊢
        rw [get?_modifyIdx]
        by_cases hs : s = sid
        · subst hs
          rw [if_pos rfl] at hm
          injection hm with hm
          subst hm
          rw [if_pos rfl]
          subst hlen
          rw [List.get?_concat_length]
          exact ⟨_, rfl, rfl⟩
        · rw [if_neg hs] at hm
          obtain ⟨c', hg', hst'⟩ := h s j hm
          have hj : j < st.pool.length := get?_some_lt hg'
          have hij : idx ≠ j := by omega
          rw [if_neg hij, List.get?_append hj]
          exact ⟨c', hg', hst'⟩
  | release sid reconnectOk =>
    have hok : reconnectOk = true := hop
    subst hok
    dsimp only [applyPoolOp]
    rcases hrel : release_connection st sid true with p | p
    · -- the error branch of release is impossible when the reconnect succeeds
      unfold release_connection at hrel
      split at hrel
      · cases hrel
      · cases hrel
    · unfold release_connection at hrel
      split at hrel
      · injection hrel with hrel
        subst hrel
        exact h
      · rename_i idx hidx
        injection hrel with hrel
        subst hrel
        intro s j hm
        dsimp only at hm ⊢
        by_cases hs : s = sid
        · subst hs
          rw [if_pos rfl] at hm
          cases hm
        · rw [if_neg hs] at hm
          obtain ⟨c', hg', hst'⟩ := h s j hm
          simp only [get?_modifyIdx]
          by_cases hij : idx = j
          · subst hij
            obtain ⟨c0, hg0, -⟩ := h sid idx hidx
            rw [if_pos rfl, if_pos rfl, if_pos rfl, if_pos rfl, hg0]
            exact ⟨_, rfl, rfl⟩
          · rw [if_neg hij, if_neg hij, if_neg hij, if_neg hij]
            exact ⟨c', hg', hst'⟩
  | replenish =>
    dsimp only [applyPoolOp]
    intro s j hm
    obtain ⟨c', hg', hst'⟩ := h s j hm
    have hj : j < st.pool.length := get?_some_lt hg'
    dsimp only
    rw [List.get?_append hj]
    exact ⟨c', hg', hst'⟩

/-- `MappedReady` holds after any sequence of pool operations whose
releases reconnect successfully. -/
theorem mappedReady_runPoolOps (ops : List PoolOp) :
    ∀ st, (∀ op ∈ ops, opReleaseOk op) → MappedReady st →
      MappedReady (runPoolOps st ops) := by
  induction ops with
  | nil =>
    intro st _ h
    exact h
  | cons op ops ih =>
    intro st hops h
    exact ih _ (fun o ho => hops o (List.mem_cons_of_mem _ ho))
      (mappedReady_applyPoolOp st op (hops op (List.mem_cons_self _ _)) h)

/-- Every pool operation with a nonempty session id preserves `PoolInv`
(the failure outcomes included). -/
theorem poolInv_applyPoolOp (st : PoolState) (op : PoolOp)
    (hop : opNonemptySid op) (h : PoolInv st) : PoolInv (applyPoolOp st op) := by
  obtain ⟨hempty, hown⟩ := h
  cases op with
  | acquire sid createOk =>
    have hsid : sid ≠ "" := hop
    dsimp only [applyPoolOp]
    rcases hacq : acquire_connection st sid createOk with e | p
    · exact ⟨hempty, hown⟩
    · obtain ⟨idx, st'⟩ := p
      rcases acquire_ok_cases st sid createOk idx st' hacq with
        ⟨c, hg, hav, rfl⟩ | ⟨hlen, rfl⟩
      · refine ⟨?_, ?_⟩
        · dsimp only [assignConn]
          rw [if_neg (fun hx => hsid hx.symm), hempty]
        · intro s j hm
          dsimp only [assignConn] at hm ⊢
          rw [get?_modifyIdx]
          by_cases hs : s = sid
          · subst hs
            rw [if_pos rfl] at hm
            injection hm with hm
            subst hm
            rw [if_pos rfl, hg]
            exact ⟨_, rfl, rfl⟩
          · rw [if_neg hs] at hm
            obtain ⟨c', hg', hsess'⟩ := hown s j hm
            by_cases hij : idx = j
            · -- the found connection is unassigned, but connection j owns s ≠ ""
              exfalso
              subst hij
              rw [hg] at hg'
              injection hg' with hg'
              subst hg'
              obtain ⟨-, -, hfal⟩ := connAvailable_fields hav
              rw [hsess'] at hfal
              have hs0 : s = "" := by
                simpa [optStrFalsy, String.isEmpty_iff] using hfal
              subst hs0
              rw [hempty] at hm
              cases hm
            · rw [if_neg hij]
              exact ⟨c', hg', hsess'⟩
      · refine ⟨?_, ?_⟩
        · dsimp only [assignConn]
          rw [if_neg (fun hx => hsid hx.symm), hempty]
        · intro s j hm
          dsimp only [assignConn] at hm ⊢
          rw [get?_modifyIdx]
          by_cases hs : s = sid
          · subst hs
            rw [if_pos rfl] at hm
            injection hm with hm
            subst hm
            rw [if_pos rfl]
            subst hlen
            rw [List.get?_concat_length]
            exact ⟨_, rfl, rfl⟩
          · rw [if_neg hs] at hm
            obtain ⟨c', hg', hsess'⟩ := hown s j hm
            have hj : j < st.pool.length := get?_some_lt hg'
            have hij : idx ≠ j := by omega
            rw [if_neg hij, List.get?_append hj]
            exact ⟨c', hg', hsess'⟩
  | release sid reconnectOk =>
    dsimp only [applyPoolOp]
    rcases hrel : release_connection st sid reconnectOk with p | p
    · -- reconnect failed: the map is unchanged and only statuses changed
      unfold release_connection at hrel
      split at hrel
      · cases hrel
      · rename_i idx hidx
        split at hrel
        · cases hrel
        · injection hrel with hrel
          subst hrel
          refine ⟨hempty, ?_⟩
          intro s j hm
          dsimp only at hm ⊢
          obtain ⟨c', hg', hsess'⟩ := hown s j hm
          simp only [get?_modifyIdx]
          by_cases hij : idx = j
          · subst hij
            rw [if_pos rfl, if_pos rfl, if_pos rfl, hg']
            exact ⟨_, rfl, hsess'⟩
          · rw [if_neg hij, if_neg hij, if_neg hij]
            exact ⟨c', hg', hsess'⟩
    · unfold release_connection at hrel
      split at hrel
      · injection hrel with hrel
        subst hrel
        exact ⟨hempty, hown⟩
      · rename_i idx hidx
        split at hrel
        · injection hrel with hrel
          subst hrel
          refine ⟨?_, ?_⟩
          · dsimp only
            split
            · rfl
            · exact hempty
          · intro s j hm
            dsimp only at hm ⊢
            by_cases hs : s = sid
            · subst hs
              rw [if_pos rfl] at hm
              cases hm
            · rw [if_neg hs] at hm
              obtain ⟨c', hg', hsess'⟩ := hown s j hm
              simp only [get?_modifyIdx]
              by_cases hij : idx = j
              · -- connections j and idx would coincide, forcing s = sid
                exfalso
                subst hij
                obtain ⟨c0, hg0, hsess0⟩ := hown sid idx hidx
                rw [hg0] at hg'
                injection hg' with hg'
                subst hg'
                rw [hsess0] at hsess'
                injection hsess' with hsess'
                exact hs hsess'.symm
              · rw [if_neg hij, if_neg hij, if_neg hij, if_neg hij]
                exact ⟨c', hg', hsess'⟩
        · cases hrel
  | replenish =>
    dsimp only [applyPoolOp]
    refine ⟨hempty, ?_⟩
    intro s j hm
    obtain ⟨c', hg', hsess'⟩ := hown s j hm
    have hj : j < st.pool.length := get?_some_lt hg'
    dsimp only
    rw [List.get?_append hj]
    exact ⟨c', hg', hsess'⟩

/-- `PoolInv` holds after any sequence of pool operations with nonempty
session ids (failures included). -/
theorem poolInv_runPoolOps (ops : List PoolOp) :
    ∀ st, (∀ op ∈ ops, opNonemptySid op) → PoolInv st →
      PoolInv (runPoolOps st ops) := by
  induction ops with
  | nil =>
    intro st _ h
    exact h
  | cons op ops ih =>
    intro st hops h
    exact ih _ (fun o ho => hops o (List.mem_cons_of_mem _ ho))
      (poolInv_applyPoolOp st op (hops op (List.mem_cons_self _ _)) h)

/-- C1 (amended): after `acquire_connection(sessionId)` returns normally
the returned connection is assigned to the session — its `session_id` is
set and it is stored in `active_connections` in the same atomic step —
but it is not marked active: its status remains `"ready"` and its
`is_active` flag remains false.  Moreover, after any sequence of pool
operations whose release reconnects succeed, every connection present in
`active_connections` has status `"ready"` (never `"active"`). -/
theorem C1_amended_acquire_assigns_ready :
    (∀ (st : PoolState) (sid : String) (createOk : Bool) (idx : Nat) (st' : PoolState),
      acquire_connection st sid createOk = .ok (idx, st') →
      st'.active_connections sid = some idx
        ∧ ∃ c, st'.pool.get? idx = some c ∧ c.session_id = some sid
            ∧ c.status = "ready" ∧ c.is_active = false)
    ∧ (∀ (n : Nat) (ops : List PoolOp), (∀ op ∈ ops, opReleaseOk op) →
        MappedReady (runPoolOps (initPool n) ops)) := by
  constructor
  · intro st sid createOk idx st' hacq
    rcases acquire_ok_cases st sid createOk idx st' hacq with
      ⟨c, hg, hav, rfl⟩ | ⟨hlen, rfl⟩
    · obtain ⟨hst, hact, -⟩ := connAvailable_fields hav
      refine ⟨by dsimp only [assignConn]; rw [if_pos rfl], ?_⟩
      dsimp only [assignConn]
      rw [get?_modifyIdx, if_pos rfl, hg]
      exact ⟨_, rfl, rfl, hst, hact⟩
    · refine ⟨by dsimp only [assignConn]; rw [if_pos rfl], ?_⟩
      dsimp only [assignConn]
      rw [get?_modifyIdx, if_pos rfl]
      subst hlen
      rw [List.get?_concat_length]
      exact ⟨_, rfl, rfl, rfl, rfl⟩
  · intro n ops hops
    refine mappedReady_runPoolOps ops (initPool n) hops ?_
    intro s idx hm
    cases hm

/-- C1 amended witness: concrete acquisition on a two-connection pool,
and the invariant after a concrete acquire/release/acquire history. -/
theorem C1_amended_witness :
    ((assignConn (initPool 2) 0 "a").active_connections "a" = some 0
      ∧ ∃ c, (assignConn (initPool 2) 0 "a").pool.get? 0 = some c
          ∧ c.session_id = some "a" ∧ c.status = "ready" ∧ c.is_active = false)
    ∧ MappedReady (runPoolOps (initPool 2)
        [.acquire "a" true, .release "a" true, .acquire "b" true]) :=
  ⟨(C1_amended_acquire_assigns_ready.1 (initPool 2) "a" true 0 _ rfl),
   C1_amended_acquire_assigns_ready.2 2
     [.acquire "a" true, .release "a" true, .acquire "b" true]
     (by intro op hop; fin_cases hop <;> trivial)⟩

/-- C2 (amended): restricted to nonempty session ids, a connection is
assigned to at most one session at a time — after any sequence of
acquire/release operations (failing ones included) no two distinct
session ids map to the same connection — and `acquire_connection` only
hands out connections that are currently unassigned (any pre-existing
connection it returns passes the availability filter; otherwise it
returns a freshly created one).  The restriction is forced by the code's
Python falsy test `not conn.session_id`, which treats a connection held
by the empty-string session id as unassigned. -/
theorem C2_amended_no_double_assignment :
    (∀ (n : Nat) (ops : List PoolOp), (∀ op ∈ ops, opNonemptySid op) →
      ∀ s1 s2 idx,
        (runPoolOps (initPool n) ops).active_connections s1 = some idx →
        (runPoolOps (initPool n) ops).active_connections s2 = some idx →
        s1 = s2)
    ∧ (∀ (st : PoolState) (sid : String) (createOk : Bool) (idx : Nat)
        (st' : PoolState) (c : LyriaConnection),
        acquire_connection st sid createOk = .ok (idx, st') →
        st.pool.get? idx = some c →
        connAvailable c = true) := by
  constructor
  · intro n ops hops s1 s2 idx h1 h2
    have hinv : PoolInv (runPoolOps (initPool n) ops) := by
      refine poolInv_runPoolOps ops (initPool n) hops ⟨rfl, ?_⟩
      intro s j hm
      cases hm
    obtain ⟨c1, hg1, hs1⟩ := hinv.2 s1 idx h1
    obtain ⟨c2, hg2, hs2⟩ := hinv.2 s2 idx h2
    rw [hg1] at hg2
    injection hg2 with hg2
    subst hg2
    rw [hs1] at hs2
    injection hs2 with hs2
  · intro st sid createOk idx st' c hacq hg
    rcases acquire_ok_cases st sid createOk idx st' hacq with
      ⟨c', hg', hav, -⟩ | ⟨hlen, -⟩
    · rw [hg] at hg'
      injection hg' with hg'
      subst hg'
      exact hav
    · exfalso
      have := get?_some_lt hg
      omega

/-- C2 amended witness: the injectivity instance on a concrete history
and the availability of the concretely acquired connection. -/
theorem C2_amended_witness :
    ("a" : String) = "a"
    ∧ connAvailable (freshConn 0) = true :=
  ⟨C2_amended_no_double_assignment.1 1 [.acquire "a" true]
      (by intro op hop; fin_cases hop; exact (by decide : ("a" : String) ≠ "")) "a" "a" 0 rfl rfl,
   C2_amended_no_double_assignment.2 (initPool 1) "a" true 0
      (assignConn (initPool 1) 0 "a") (freshConn 0) rfl rfl⟩

/-- Without seek events, `recAfterProcess` only moves the offsets
forward (by `frame_interval`). -/
theorem recAfterProcess_noseek_lower (B : ℚ) (st : SchedState) (inp : RecIterInput)
    (a : Option ℚ) (c : Nat) (p : List String) (s : ℚ)
    (hsip : inp.seekInProcessing = none)
    (hpo : B ≤ st.playback_offset) (hso : B ≤ st.sess_offset) :
    B ≤ (recAfterProcess st inp a c p s).1.playback_offset
    ∧ B ≤ (recAfterProcess st inp a c p s).1.sess_offset := by
  obtain ⟨po, pst, so, sst, act, now, ctx, prev⟩ := st
  obtain ⟨siw, sam, dif, del, ia, sip, pt⟩ := inp
  dsimp only at hsip hpo hso ⊢
  subst hsip
  unfold recAfterProcess
  dsimp only
  have hfi : (0 : ℚ) ≤ frame_interval := by norm_num [frame_interval]
  split_ifs <;> dsimp only <;> constructor <;> linarith

theorem recordedIter_noseek_lower (thr B : ℚ) (st : SchedState) (inp : RecIterInput)
    (h1 : inp.seekInWait = none) (h2 : inp.seekInProcessing = none)
    (hpo : B ≤ st.playback_offset) (hso : B ≤ st.sess_offset) :
    B ≤ (recordedIter thr st inp).1.playback_offset
    ∧ B ≤ (recordedIter thr st inp).1.sess_offset
    ∧ ∀ off, (recordedIter thr st inp).2.sampledAt = some off → B ≤ off := by
  have hmain : ∀ (st' : SchedState) (s : ℚ), B ≤ st'.playback_offset →
      B ≤ st'.sess_offset → st'.sess_offset = st.sess_offset →
      B ≤ (recProcessFrame thr st' inp s).1.playback_offset
      ∧ B ≤ (recProcessFrame thr st' inp s).1.sess_offset
      ∧ ∀ off, (recProcessFrame thr st' inp s).2.sampledAt = some off → B ≤ off := by
    intro st' s hpo' hso' _
    obtain ⟨po, pst, so, sst, act, now, ctx, prev⟩ := st'
    obtain ⟨siw, sam, dif, del, ia, sip, pt⟩ := inp
    dsimp only at h1 h2 hpo' hso' ⊢
    subst h1
    subst h2
    unfold recProcessFrame
    rcases sam with u | cf
    · exact ⟨hpo', hso', fun off hoff => by cases hoff⟩
    · dsimp only
      have hafter : ∀ (po2 pst2 sst2 now2 : ℚ) (ctx2 : CompositionContext)
          (pf2 : Option Frame) (a : Option ℚ) (cnt : Nat) (ps : List String),
          B ≤ po2 →
          B ≤ (recAfterProcess ⟨po2, pst2, so, sst2, act, now2, ctx2, pf2⟩
                ⟨none, .ok cf, dif, del, ia, none, pt⟩ a cnt ps s).1.playback_offset
          ∧ B ≤ (recAfterProcess ⟨po2, pst2, so, sst2, act, now2, ctx2, pf2⟩
                ⟨none, .ok cf, dif, del, ia, none, pt⟩ a cnt ps s).1.sess_offset := by
        intro po2 pst2 sst2 now2 ctx2 pf2 a cnt ps hpo2
        exact recAfterProcess_noseek_lower B
          ⟨po2, pst2, so, sst2, act, now2, ctx2, pf2⟩
          ⟨none, .ok cf, dif, del, ia, none, pt⟩ a cnt ps s rfl hpo2 hso'
      have hsampled : ∀ off : ℚ, some po = some off → B ≤ off := by
        intro off hoff
        injection hoff with hoff
        rw [← hoff]
        exact hpo'
      rcases prev with _ | pf
      · rcases ia with u3 | notes
        · exact ⟨hpo', hso', fun off hoff => hsampled off hoff⟩
        · dsimp only
          refine ⟨(hafter _ _ _ _ _ _ _ _ _ hpo').1, (hafter _ _ _ _ _ _ _ _ _ hpo').2, ?_⟩
          intro off hoff
          rw [recAfterProcess_effects] at hoff
          exact hsampled off hoff
      · dsimp only
        split
        · rcases del with u2 | d
          · exact ⟨hpo', hso', fun off hoff => hsampled off hoff⟩
          · obtain ⟨analysisText, needs_change⟩ := d
            dsimp only
            split
            · refine ⟨(hafter _ _ _ _ _ _ _ _ _ hpo').1,
                (hafter _ _ _ _ _ _ _ _ _ hpo').2, ?_⟩
              intro off hoff
              rw [recAfterProcess_effects] at hoff
              exact hsampled off hoff
            · refine ⟨(hafter _ _ _ _ _ _ _ _ _ hpo').1,
                (hafter _ _ _ _ _ _ _ _ _ hpo').2, ?_⟩
              intro off hoff
              rw [recAfterProcess_effects] at hoff
              exact hsampled off hoff
        · refine ⟨(hafter _ _ _ _ _ _ _ _ _ hpo').1,
            (hafter _ _ _ _ _ _ _ _ _ hpo').2, ?_⟩
          intro off hoff
          rw [recAfterProcess_effects] at hoff
          exact hsampled off hoff
  unfold recordedIter
  dsimp only
  rw [h1]
  split
  · split
    · -- the session offset differs without a seek: re-synchronise, no sample
      exact ⟨hso, hso, fun off hoff => by cases hoff⟩
    · exact hmain _ _ hpo hso rfl
  · exact hmain _ _ hpo hso rfl
/-- Without seek events, no frame sampled by any further run of the
recorded-video loop targets an offset below a bound both offset
variables already satisfy. -/
theorem runRecorded_noseek_lower (thr duration B : ℚ) :
    ∀ (inps : List RecIterInput) (st : SchedState),
      (∀ i ∈ inps, i.seekInWait = none ∧ i.seekInProcessing = none) →
      B ≤ st.playback_offset → B ≤ st.sess_offset →
      ∀ e ∈ (runRecorded thr duration st inps).2, ∀ off,
        e.sampledAt = some off → B ≤ off := by
  intro inps
  induction inps with
  | nil =>
    intro st h hpo hso e he
    simp only [runRecorded, List.not_mem_nil] at he
  | cons inp inps ih =>
    intro st h hpo hso e he
    unfold runRecorded at he
    split at he
    · dsimp only at he
      rcases List.mem_cons.mp he with rfl | he'
      · exact (recordedIter_noseek_lower thr B st inp
          (h inp (List.mem_cons_self _ _)).1 (h inp (List.mem_cons_self _ _)).2 hpo hso).2.2
      · have hlow := recordedIter_noseek_lower thr B st inp
          (h inp (List.mem_cons_self _ _)).1 (h inp (List.mem_cons_self _ _)).2 hpo hso
        exact ih (recordedIter thr st inp).1
          (fun i hi => h i (List.mem_cons_of_mem _ hi)) hlow.1 hlow.2.1 e he'
    · simp only [List.not_mem_nil] at he

/-- If no seek lands during the wait, the session offset agrees with the
local offset, and frame extraction succeeds, the iteration samples the
frame for exactly the current local offset. -/
theorem recordedIter_samples_current (thr : ℚ) (st : SchedState) (inp : RecIterInput)
    (cf : Frame) (hsw : inp.seekInWait = none) (hsample : inp.sample = .ok cf)
    (hsess : st.sess_offset = st.playback_offset) :
    (recordedIter thr st inp).2.sampledAt = some st.playback_offset := by
  obtain ⟨po, pst, so, sst, act, now, ctx, prev⟩ := st
  obtain ⟨siw, sam, dif, del, ia, sip, pt⟩ := inp
  dsimp only at hsw hsample hsess ⊢
  subst hsw
  subst hsample
  subst hsess
  have hproc : ∀ (pst2 sst2 now2 s : ℚ),
      (recProcessFrame thr ⟨so, pst2, so, sst2, act, now2, ctx, prev⟩
        ⟨none, .ok cf, dif, del, ia, sip, pt⟩ s).2.sampledAt = some so := by
    intro pst2 sst2 now2 s
    unfold recProcessFrame
    dsimp only
    rcases prev with _ | pf
    · rcases ia with u | notes
      · rfl
      · dsimp only
        rw [recAfterProcess_effects]
    · dsimp only
      split
      · rcases del with u | d
        · rfl
        · obtain ⟨analysisText, nc⟩ := d
          dsimp only
          split
          · rw [recAfterProcess_effects]
          · rw [recAfterProcess_effects]
      · rw [recAfterProcess_effects]
  unfold recordedIter
  dsimp only
  split
  · split
    · rename_i hne
      exact absurd rfl hne
    · exact hproc _ _ _ _
  · exact hproc _ _ _ _

/-- C3: seek correctness of the recorded-video scheduler.
(a) `update_playback_offset(session, 75)` re-anchors the session
timeline: it sets `playback_offset = 75` and
`playback_start_time = now - 75`, so wall-clock elapsed since start
equals the nominal offset again.  (b) With the scheduler at local offset
30 and mid-wait (`sampleInterval = frame_interval = 10`), a seek to 75
arriving during the wait makes the iteration discard the stale wait:
nothing is sampled and no prompt is sent, and the local state re-anchors
to offset 75 with `playback_start_time = tSeek - 75`.  (c) The next
iteration then samples the frame for offset 75 (not 40), and (d) absent
further seeks every later sampled offset is at least 75 — in particular
offset 40, the successor of 30, is never sampled after the seek. -/
theorem C3_seek_reanchors_timeline :
    (∀ (ost : OrchState) (sid : String) (now : ℚ) (sess : OrchSession)
        (ost' : OrchState),
      ost.active_sessions sid = some sess →
      update_playback_offset ost sid now 75 = .ok ost' →
      ∃ sess', ost'.active_sessions sid = some sess'
        ∧ sess'.playback_offset = some 75
        ∧ sess'.playback_start_time = some (now - 75))
    ∧ (∀ (thr : ℚ) (st : SchedState) (inp : RecIterInput) (tSeek : ℚ),
      st.playback_offset = 30 → st.sess_offset = 30 →
      st.now - st.playback_start_time < 25 →
      inp.seekInWait = some ⟨tSeek, 75⟩ →
      (recordedIter thr st inp).2.sampledAt = none
      ∧ (recordedIter thr st inp).2.promptsSent = []
      ∧ (recordedIter thr st inp).2.analysisCalls = 0
      ∧ (recordedIter thr st inp).1.playback_offset = 75
      ∧ (recordedIter thr st inp).1.sess_offset = 75
      ∧ (recordedIter thr st inp).1.playback_start_time = tSeek - 75
      ∧ (∀ (inp2 : RecIterInput) (cf : Frame),
          inp2.seekInWait = none → inp2.sample = .ok cf →
          (recordedIter thr (recordedIter thr st inp).1 inp2).2.sampledAt = some 75)
      ∧ (∀ (duration : ℚ) (inps : List RecIterInput),
          (∀ i ∈ inps, i.seekInWait = none ∧ i.seekInProcessing = none) →
          ∀ e ∈ (runRecorded thr duration (recordedIter thr st inp).1 inps).2,
            ∀ off, e.sampledAt = some off → 75 ≤ off ∧ off ≠ 40)) := by
  constructor
  · intro ost sid now sess ost' hs hupd
    unfold update_playback_offset at hupd
    rw [hs] at hupd
    dsimp only at hupd
    injection hupd with hupd
    subst hupd
    refine Exists.intro { sess with playback_offset := some 75, playback_start_time := some (now - 75) } ⟨?_, rfl, rfl⟩
    simp
  · intro thr st inp tSeek hpo hso hwait hseek
    obtain ⟨po, pst, so, sst, act, now, ctx, prev⟩ := st
    obtain ⟨siw, sam, dif, del, ia, sip, pt⟩ := inp
    dsimp only at hpo hso hwait hseek ⊢
    subst hpo
    subst hso
    subst hseek
    have hb : recordedIter thr ⟨30, pst, 30, sst, act, now, ctx, prev⟩
        ⟨some ⟨tSeek, 75⟩, sam, dif, del, ia, sip, pt⟩
        = (⟨75, tSeek - 75, 75, tSeek - 75, act,
            now + (30 - processing_buffer - (now - pst)), ctx, prev⟩,
           { sampledAt := none, analysisCalls := 0, promptsSent := [],
             cadenceSleep := 30 - processing_buffer - (now - pst),
             postSleep := 0, errorLogged := false }) := by
      unfold recordedIter
      dsimp only [applySeek]
      rw [if_pos (by norm_num [processing_buffer]; linarith)]
      rw [if_pos (by norm_num : (75 : ℚ) ≠ 30)]
    rw [hb]
    refine ⟨rfl, rfl, rfl, rfl, rfl, rfl, ?_, ?_⟩
    · intro inp2 cf hsw2 hsample2
      exact recordedIter_samples_current thr _ inp2 cf hsw2 hsample2 rfl
    · intro duration inps hinps e he off hoff
      have h75 := runRecorded_noseek_lower thr duration 75 inps _ hinps
        (le_refl _) (le_refl _) e he off hoff
      refine ⟨h75, ?_⟩
      intro h40
      rw [h40] at h75
      norm_num at h75

/-- C3 witness: the concrete scenario of the claim — local offset 30,
on-schedule wait, seek to 75 at wall time 20 — evaluated through the
main theorem. -/
theorem C3_witness :
    (recordedIter (1/5)
        { playback_offset := 30, playback_start_time := 0, sess_offset := 30,
          sess_start_time := 0, is_active := true, now := 0,
          ctx := CompositionContext.init "T", previous_frame := some 1 }
        { seekInWait := some ⟨20, 75⟩, sample := .ok 2, diffResult := .ok 1,
          delta := .ok ("x", true), initAnalysis := .ok "x",
          seekInProcessing := none, procTime := 0 }).2.sampledAt = none
    ∧ (recordedIter (1/5)
        { playback_offset := 30, playback_start_time := 0, sess_offset := 30,
          sess_start_time := 0, is_active := true, now := 0,
          ctx := CompositionContext.init "T", previous_frame := some 1 }
        { seekInWait := some ⟨20, 75⟩, sample := .ok 2, diffResult := .ok 1,
          delta := .ok ("x", true), initAnalysis := .ok "x",
          seekInProcessing := none, procTime := 0 }).1.playback_start_time = 20 - 75
    ∧ (recordedIter (1/5)
        (recordedIter (1/5)
          { playback_offset := 30, playback_start_time := 0, sess_offset := 30,
            sess_start_time := 0, is_active := true, now := 0,
            ctx := CompositionContext.init "T", previous_frame := some 1 }
          { seekInWait := some ⟨20, 75⟩, sample := .ok 2, diffResult := .ok 1,
            delta := .ok ("x", true), initAnalysis := .ok "x",
            seekInProcessing := none, procTime := 0 }).1
        { seekInWait := none, sample := .ok 3, diffResult := .ok 1,
          delta := .ok ("y", true), initAnalysis := .ok "y",
          seekInProcessing := none, procTime := 0 }).2.sampledAt = some 75 := by
  have h := C3_seek_reanchors_timeline.2 (1/5)
    { playback_offset := 30, playback_start_time := 0, sess_offset := 30,
      sess_start_time := 0, is_active := true, now := 0,
      ctx := CompositionContext.init "T", previous_frame := some 1 }
    { seekInWait := some ⟨20, 75⟩, sample := .ok 2, diffResult := .ok 1,
      delta := .ok ("x", true), initAnalysis := .ok "x",
      seekInProcessing := none, procTime := 0 }
    20 rfl rfl (by norm_num) rfl
  exact ⟨h.1, h.2.2.2.2.2.1, h.2.2.2.2.2.2.1
    { seekInWait := none, sample := .ok 3, diffResult := .ok 1,
      delta := .ok ("y", true), initAnalysis := .ok "y",
      seekInProcessing := none, procTime := 0 } 3 rfl rfl⟩

/-- C5 (amended): a failure while sampling or analyzing a single frame
inside the scheduler loop is caught and logged, never terminates the
session, and produces no prompt update for that iteration, in both
modes; but only the livestream loop retries after a back-off sleep
(`livestream_interval`, both on success and in its exception handler),
while the recorded-video loop performs no sleep in its exception handler
and retries according to its schedule.  A comparison failure never
reaches the loop's handler at all: `compare_frames` catches it
internally and returns the maximal difference `1.0`, so the iteration
proceeds to analysis. -/
theorem C5_amended_perframe_failures :
    compareFramesResult (.error ()) = 1
    ∧ (∀ (thr : ℚ) (st : SchedState) (inp : RecIterInput),
      inp.seekInWait = none → st.sess_offset = st.playback_offset →
      inp.sample = .error () →
      (recordedIter thr st inp).1.is_active = st.is_active
      ∧ (recordedIter thr st inp).1.ctx = st.ctx
      ∧ (recordedIter thr st inp).1.previous_frame = st.previous_frame
      ∧ (recordedIter thr st inp).2.promptsSent = []
      ∧ (recordedIter thr st inp).2.analysisCalls = 0
      ∧ (recordedIter thr st inp).2.errorLogged = true
      ∧ (recordedIter thr st inp).2.postSleep = 0)
    ∧ (∀ (thr : ℚ) (st : SchedState) (inp : RecIterInput) (pf cf : Frame) (d : ℚ),
      inp.seekInWait = none → st.sess_offset = st.playback_offset →
      inp.sample = .ok cf → st.previous_frame = some pf →
      inp.diffResult = .ok d → d > thr → inp.delta = .error () →
      (recordedIter thr st inp).1.is_active = st.is_active
      ∧ (recordedIter thr st inp).1.ctx = st.ctx
      ∧ (recordedIter thr st inp).1.previous_frame = st.previous_frame
      ∧ (recordedIter thr st inp).2.promptsSent = []
      ∧ (recordedIter thr st inp).2.errorLogged = true
      ∧ (recordedIter thr st inp).2.postSleep = 0)
    ∧ (∀ (thr : ℚ) (st : SchedState) (inp : RecIterInput) (cf : Frame),
      inp.seekInWait = none → st.sess_offset = st.playback_offset →
      inp.sample = .ok cf → st.previous_frame = none →
      inp.initAnalysis = .error () →
      (recordedIter thr st inp).1.is_active = st.is_active
      ∧ (recordedIter thr st inp).1.ctx = st.ctx
      ∧ (recordedIter thr st inp).1.previous_frame = st.previous_frame
      ∧ (recordedIter thr st inp).2.promptsSent = []
      ∧ (recordedIter thr st inp).2.errorLogged = true
      ∧ (recordedIter thr st inp).2.postSleep = 0)
    ∧ (∀ (thr itv : ℚ) (st : LiveState) (inp : LiveIterInput),
      inp.sample = .error () →
      livestreamIter thr itv st inp = (st,
        { sampledAt := none, analysisCalls := 0, promptsSent := [],
          cadenceSleep := 0, postSleep := itv, errorLogged := true }))
    ∧ (∀ (thr itv : ℚ) (st : LiveState) (inp : LiveIterInput) (pf cf : Frame),
      inp.sample = .ok cf → st.previous_frame = some pf →
      (is_significant_change st.fx_last_frame thr cf inp.diffResult).1 = true →
      inp.delta = .error () →
      (livestreamIter thr itv st inp).1.is_active = st.is_active
      ∧ (livestreamIter thr itv st inp).1.ctx = st.ctx
      ∧ (livestreamIter thr itv st inp).1.previous_frame = st.previous_frame
      ∧ (livestreamIter thr itv st inp).2.promptsSent = []
      ∧ (livestreamIter thr itv st inp).2.errorLogged = true
      ∧ (livestreamIter thr itv st inp).2.postSleep = itv)
    ∧ (∀ (thr itv : ℚ) (st : LiveState) (inp : LiveIterInput) (cf : Frame),
      inp.sample = .ok cf → st.previous_frame = none →
      inp.initAnalysis = .error () →
      livestreamIter thr itv st inp = (st,
        { sampledAt := none, analysisCalls := 1, promptsSent := [],
          cadenceSleep := 0, postSleep := itv, errorLogged := true })) := by
  refine ⟨rfl, ?_, ?_, ?_, ?_, ?_, ?_⟩
  · intro thr st inp hsw hsess hsam
    obtain ⟨po, pst, so, sst, act, now, ctx, prev⟩ := st
    obtain ⟨siw, sam, dif, del, ia, sip, pt⟩ := inp
    dsimp only at hsw hsess hsam ⊢
    subst hsw
    subst hsess
    subst hsam
    unfold recordedIter
    dsimp only
    split
    · split
      · rename_i hne
        exact absurd rfl hne
      · exact ⟨rfl, rfl, rfl, rfl, rfl, rfl, rfl⟩
    · exact ⟨rfl, rfl, rfl, rfl, rfl, rfl, rfl⟩
  · intro thr st inp pf cf d hsw hsess hsam hprev hdif hd hdel
    obtain ⟨po, pst, so, sst, act, now, ctx, prev⟩ := st
    obtain ⟨siw, sam, dif, del, ia, sip, pt⟩ := inp
    dsimp only at hsw hsess hsam hprev hdif hd hdel ⊢
    subst hsw
    subst hsess
    subst hsam
    subst hprev
    subst hdif
    subst hdel
    have hproc : ∀ (pst2 sst2 now2 s : ℚ),
        (recProcessFrame thr ⟨so, pst2, so, sst2, act, now2, ctx, some pf⟩
          ⟨none, .ok cf, .ok d, .error (), ia, sip, pt⟩ s)
          = (⟨so, pst2, so, sst2, act, now2, ctx, some pf⟩,
             { sampledAt := some so, analysisCalls := 1, promptsSent := [],
               cadenceSleep := s, postSleep := 0, errorLogged := true }) := by
      intro pst2 sst2 now2 s
      unfold recProcessFrame
      dsimp only [compareFramesResult]
      rw [if_pos hd]
    unfold recordedIter
    dsimp only
    split
    · split
      · rename_i hne
        exact absurd rfl hne
      · rw [hproc]
        exact ⟨rfl, rfl, rfl, rfl, rfl, rfl⟩
    · rw [hproc]
      exact ⟨rfl, rfl, rfl, rfl, rfl, rfl⟩
  · intro thr st inp cf hsw hsess hsam hprev hia
    obtain ⟨po, pst, so, sst, act, now, ctx, prev⟩ := st
    obtain ⟨siw, sam, dif, del, ia, sip, pt⟩ := inp
    dsimp only at hsw hsess hsam hprev hia ⊢
    subst hsw
    subst hsess
    subst hsam
    subst hprev
    subst hia
    unfold recordedIter
    dsimp only
    split
    · split
      · rename_i hne
        exact absurd rfl hne
      · exact ⟨rfl, rfl, rfl, rfl, rfl, rfl⟩
    · exact ⟨rfl, rfl, rfl, rfl, rfl, rfl⟩
  · intro thr itv st inp hsam
    obtain ⟨ctx, prev, fx, act, now⟩ := st
    obtain ⟨sam, dif, del, ia⟩ := inp
    dsimp only at hsam
    subst hsam
    rfl
  · intro thr itv st inp pf cf hsam hprev hsig hdel
    obtain ⟨ctx, prev, fx, act, now⟩ := st
    obtain ⟨sam, dif, del, ia⟩ := inp
    dsimp only at hsam hprev hsig hdel ⊢
    subst hsam
    subst hprev
    subst hdel
    unfold livestreamIter
    dsimp only
    rw [if_pos hsig]
    exact ⟨rfl, rfl, rfl, rfl, rfl, rfl⟩
  · intro thr itv st inp cf hsam hprev hia
    obtain ⟨ctx, prev, fx, act, now⟩ := st
    obtain ⟨sam, dif, del, ia⟩ := inp
    dsimp only at hsam hprev hia
    subst hsam
    subst hprev
    subst hia
    rfl

/-- C5 amended witness: concrete failing iterations in both modes,
through the main theorem — the recorded iteration logs the failure with
no prompt and no post sleep, the livestream iteration backs off by its
snapshot interval. -/
theorem C5_amended_witness :
    ((recordedIter (1/5)
        { playback_offset := 10, playback_start_time := 0, sess_offset := 10,
          sess_start_time := 0, is_active := true, now := 100,
          ctx := CompositionContext.init "T", previous_frame := none }
        { seekInWait := none, sample := .error (), diffResult := .ok 0,
          delta := .ok ("", false), initAnalysis := .ok "",
          seekInProcessing := none, procTime := 0 }).1.is_active = true
      ∧ (recordedIter (1/5)
        { playback_offset := 10, playback_start_time := 0, sess_offset := 10,
          sess_start_time := 0, is_active := true, now := 100,
          ctx := CompositionContext.init "T", previous_frame := none }
        { seekInWait := none, sample := .error (), diffResult := .ok 0,
          delta := .ok ("", false), initAnalysis := .ok "",
          seekInProcessing := none, procTime := 0 }).2.postSleep = 0)
    ∧ livestreamIter (1/5) 5
        { ctx := CompositionContext.init "T", previous_frame := none,
          fx_last_frame := none, is_active := true, now := 0 }
        { sample := .error (), diffResult := .ok 0, delta := .ok ("", false),
          initAnalysis := .ok "" }
      = ({ ctx := CompositionContext.init "T", previous_frame := none,
           fx_last_frame := none, is_active := true, now := 0 },
         { sampledAt := none, analysisCalls := 0, promptsSent := [],
           cadenceSleep := 0, postSleep := 5, errorLogged := true }) := by
  have hr := C5_amended_perframe_failures.2.1 (1/5)
    { playback_offset := 10, playback_start_time := 0, sess_offset := 10,
      sess_start_time := 0, is_active := true, now := 100,
      ctx := CompositionContext.init "T", previous_frame := none }
    { seekInWait := none, sample := .error (), diffResult := .ok 0,
      delta := .ok ("", false), initAnalysis := .ok "",
      seekInProcessing := none, procTime := 0 } rfl rfl rfl
  have hl := C5_amended_perframe_failures.2.2.2.2.1 (1/5) 5
    { ctx := CompositionContext.init "T", previous_frame := none,
      fx_last_frame := none, is_active := true, now := 0 }
    { sample := .error (), diffResult := .ok 0, delta := .ok ("", false),
      initAnalysis := .ok "" } rfl
  exact ⟨⟨hr.1, hr.2.2.2.2.2.2⟩, hl⟩

end GeminiShowcase
